import Mathlib

/-!
Verification development for the Encar monitoring system.

A shallow embedding of the parts of the repository relevant to the listing
store (`data_storage.py`), the price normalizer (`monetary_utils.py`), the
closure scanner (`closure_scanner.py`), the acquisition client
(`encar_api_client.py`) and the orchestrator (`encar_monitor_api.py`),
together with theorems settling the specification claims.

Modelling conventions:
* machine time is a single abstract integer timeline (`Env.now`); library
  calls that parse date or price strings (`strptime`, `parse_korean_price`)
  are abstracted as function-valued fields of the environment, with the
  guards around them (empty-string checks, format dispatch) translated
  explicitly from the source;
* the SQLite `listings` table is a list of records; SQL `UPDATE ... WHERE
  car_id = ?` becomes a map that rewrites every row whose `car_id` matches;
* Python `try`/`except` blocks that swallow all exceptions and return a
  default become total functions returning that default, with raising inner
  steps represented as `Option`;
* network and browser I/O is represented by oracles (functions from an
  attempt index or URL to the observed response), so that one run of the
  code under one oracle is one evaluation of the embedding.
-/

namespace Encar

/-! ### Character-list primitives (Python `in`, `str.lower`, `str.strip`) -/

/-- `leadsWith needle hay` is true when `needle` is an initial segment of `hay`. -/
def leadsWith : List Char → List Char → Bool
  | [], _ => true
  | _ :: _, [] => false
  | a :: as, b :: bs => a = b && leadsWith as bs

/-- Python `needle in hay` on strings: some suffix of `hay` starts with `needle`. -/
def listContains (hay needle : List Char) : Bool :=
  leadsWith needle hay ||
    (match hay with
     | [] => false
     | _ :: t => listContains t needle)

/-- Substring containment on `String`, i.e. Python `needle in hay`. -/
def strContains (hay needle : String) : Bool :=
  listContains hay.data needle.data

/-- ASCII lower-casing of one character (the only case change `str.lower`
performs on the vocabulary the scanner compares against). -/
def charLower (c : Char) : Char :=
  if 65 ≤ c.toNat ∧ c.toNat ≤ 90 then Char.ofNat (c.toNat + 32) else c

/-- Python `s.lower()`, as a character list. -/
def strLower (s : String) : List Char := s.data.map charLower

/-- Python whitespace test used by `str.strip`. -/
def isWs (c : Char) : Bool := c = ' ' || c = '\t' || c = '\n' || c = '\r'

/-- Python `s.strip()` on a character list. -/
def stripChars (l : List Char) : List Char :=
  ((l.dropWhile isWs).reverse.dropWhile isWs).reverse

/-- Python truthiness of an optional string (`None` and `""` are falsy). -/
def strTruthy : Option String → Bool
  | none => false
  | some s => s ≠ ""

/-- Python `d.get(key, '')` for an optional string field. -/
def optStr : Option String → String
  | none => ""
  | some s => s

/-! ### Environment: time and the abstracted parsing library calls -/

/-- Ambient environment of one run: the current time and the two library
parsers (`datetime.strptime` inside `parse_registration_date`, and
`parse_korean_price` inside `parse_price_to_numeric`), abstracted as
functions. `now` is a point on an abstract integer timeline; each store
function interprets differences on it in the unit the source uses there
(days for registration ages and cleanup, minutes for the notification
window). -/
structure Env where
  now : Int
  parseDate : String → Option Int
  parsePrice : String → Option Int

/-! ### Data model (`data_storage.py` schema and the listing dicts) -/

/-- The `lease_info` dict attached to an acquired listing. -/
structure LeaseInfo where
  estimated_price : Option Int := none
  total_cost : Option Int := none
  deposit : Option Int := none
  monthly_payment : Option Int := none
  lease_term_months : Option Int := none
  final_payment : Option Int := none
  total_monthly_cost : Option Int := none
deriving Repr, DecidableEq

/-- A raw acquired listing dict as consumed by `EncarDatabase.save_listing`.
Fields read with `.get` and a default in the source carry that default
here. -/
structure ListingData where
  car_id : String
  title : String := ""
  model : String := ""
  year : Int := 0
  price : String := ""
  mileage : Int := 0
  views : Int := 0
  registration_date : Option String := none
  listing_url : String := ""
  is_coupe : Bool := false
  is_lease : Bool := false
  lease_info : Option LeaseInfo := none
  api_source : Bool := false
deriving Repr, DecidableEq

/-- One row of the `listings` table (`init_database` schema). -/
structure ListingRecord where
  car_id : String
  title : String := ""
  model : String := ""
  year : Int := 0
  price : Option Int := none
  mileage : Int := 0
  views : Int := 0
  registration_date : Option String := none
  listing_url : String := ""
  first_seen : Int := 0
  last_updated : Int := 0
  is_coupe : Bool := false
  is_truly_new : Bool := false
  days_since_registration : Option Int := none
  is_lease : Bool := false
  true_price : Option Int := none
  lease_deposit : Option Int := none
  lease_monthly_payment : Option Int := none
  lease_term_months : Option Int := none
  lease_total_monthly_cost : Option Int := none
  final_payment : Option Int := none
  is_closed : Bool := false
  closure_detected_at : Option Int := none
  closure_type : Option String := none
deriving Repr, DecidableEq

/-- The `listings` table. -/
abbrev Store := List ListingRecord

/-- `SELECT ... WHERE car_id = ?` returning the first matching row. -/
def lookup (st : Store) (cid : String) : Option ListingRecord :=
  st.find? (fun r => decide (r.car_id = cid))

/-! ### `EncarDatabase` operations -/

/-- `EncarDatabase.parse_registration_date`: empty input returns `None`;
strings with `/` or `-` go to `strptime` (abstracted to `env.parseDate`,
returning the parsed date as a day number); anything else returns `None`. -/
def parse_registration_date (env : Env) (s : String) : Option Int :=
  if s = "" then none
  else if strContains s "/" then env.parseDate s
  else if strContains s "-" then env.parseDate s
  else none

/-- `EncarDatabase.calculate_days_since_registration`:
`(datetime.now() - reg_date).days`. -/
def calculate_days_since_registration (env : Env) (s : String) : Option Int :=
  (parse_registration_date env s).map (fun d => env.now - d)

/-- `EncarDatabase.parse_price_to_numeric`: falsy input returns `None`,
otherwise `parse_korean_price` (abstracted to `env.parsePrice`, whose
`none` also covers the `except` branch). -/
def parse_price_to_numeric (env : Env) (s : String) : Option Int :=
  if s = "" then none else env.parsePrice s

/-- `EncarDatabase.listing_exists`: `SELECT 1 FROM listings WHERE car_id = ?`. -/
def listing_exists (st : Store) (cid : String) : Bool :=
  st.any (fun r => decide (r.car_id = cid))

/-- The `new_listing_criteria` section of the configuration, with the
defaults `is_truly_new_listing` supplies through `.get`. -/
structure NewListingCriteria where
  max_registration_age_days : Int := 30
  max_views_for_new : Int := 100
  immediate_alert_views : Int := 10
deriving Repr, DecidableEq

/-- `EncarDatabase.is_truly_new_listing`. The source guards each rule with
`days_since_reg is not None` / `is None`; those guards become the match on
the computed `Option`. Rule order and the early `return False` for
registrations older than `max_registration_age_days` are kept exactly. -/
def is_truly_new_listing (env : Env) (st : Store) (d : ListingData)
    (c : NewListingCriteria) : Bool :=
  if listing_exists st d.car_id then false
  else
    match calculate_days_since_registration env (optStr d.registration_date) with
    | some ds =>
      if ds > c.max_registration_age_days then false
      else if ds ≤ 7 ∧ d.views ≤ c.max_views_for_new then true
      else if ds ≤ c.max_registration_age_days then true
      else false
    | none =>
      if d.views ≤ c.immediate_alert_views then true
      else false

/-- The derived `days_since_registration` of an acquired listing. -/
def save_days_since_reg (env : Env) (d : ListingData) : Option Int :=
  calculate_days_since_registration env (optStr d.registration_date)

/-- `lease_total_monthly_cost` as computed by `save_listing`:
`if lease_monthly_payment and lease_term_months:` (Python truthiness: both
present and non-zero) take the product, else `lease_info.get('total_monthly_cost')`. -/
def save_ltmc (d : ListingData) : Option Int :=
  match d.lease_info.bind (·.monthly_payment), d.lease_info.bind (·.lease_term_months) with
  | some m, some t =>
    if m ≠ 0 ∧ t ≠ 0 then some (m * t)
    else d.lease_info.bind (·.total_monthly_cost)
  | _, _ => d.lease_info.bind (·.total_monthly_cost)

/-- The `price` column value (`estimated_price` for a lease that has one,
else the parsed raw price). -/
def save_db_price (env : Env) (d : ListingData) : Option Int :=
  if d.is_lease && (d.lease_info.bind (·.estimated_price)).isSome
  then d.lease_info.bind (·.estimated_price)
  else parse_price_to_numeric env d.price

/-- The `true_price` column value (`total_cost` for a lease that has one,
else the parsed raw price). -/
def save_db_true_price (env : Env) (d : ListingData) : Option Int :=
  if d.is_lease && (d.lease_info.bind (·.total_cost)).isSome
  then d.lease_info.bind (·.total_cost)
  else parse_price_to_numeric env d.price

/-- The `(views, registration_date, days_since_registration)` triple written
on a re-observation: an API-only observation (flagged `api_source`, zero
views, no registration date) of a row that carries browser data keeps the
row's values; anything else takes the new observation's values. -/
def save_preserve (env : Env) (d : ListingData) (ex : ListingRecord) :
    Int × Option String × Option Int :=
  if (d.api_source && decide (d.views = 0) && !(strTruthy d.registration_date))
      && (decide (ex.views > 0) || strTruthy ex.registration_date)
  then (ex.views, ex.registration_date, ex.days_since_registration)
  else (d.views, d.registration_date, save_days_since_reg env d)

/-- The `UPDATE` of `save_listing`'s re-observation branch, applied to each
row whose `car_id` matches (`ex` is the row the preceding `SELECT`
fetched). -/
def save_update_row (env : Env) (d : ListingData) (ex : ListingRecord)
    (r : ListingRecord) : ListingRecord :=
  { r with
    title := d.title, model := d.model, year := d.year,
    price := save_db_price env d,
    mileage := d.mileage, views := (save_preserve env d ex).1,
    registration_date := (save_preserve env d ex).2.1,
    listing_url := d.listing_url,
    last_updated := env.now, is_coupe := d.is_coupe,
    days_since_registration := (save_preserve env d ex).2.2,
    is_lease := d.is_lease, true_price := save_db_true_price env d,
    lease_deposit := d.lease_info.bind (·.deposit),
    lease_monthly_payment := d.lease_info.bind (·.monthly_payment),
    lease_term_months := d.lease_info.bind (·.lease_term_months),
    lease_total_monthly_cost := save_ltmc d,
    final_payment := d.lease_info.bind (·.final_payment) }

/-- The row `save_listing` inserts for an id absent from the table
(`is_truly_new` evaluated only when a configuration was passed; the unset
columns keep their schema defaults, in particular `is_closed = 0`). -/
def save_new_record (env : Env) (d : ListingData) (cfg : Option NewListingCriteria)
    (st : Store) : ListingRecord :=
  { car_id := d.car_id, title := d.title, model := d.model,
    year := d.year, price := save_db_price env d, mileage := d.mileage,
    views := d.views, registration_date := d.registration_date,
    listing_url := d.listing_url, first_seen := env.now,
    last_updated := env.now, is_coupe := d.is_coupe,
    is_truly_new := (match cfg with
                     | some c => is_truly_new_listing env st d c
                     | none => false),
    days_since_registration := save_days_since_reg env d,
    is_lease := d.is_lease, true_price := save_db_true_price env d,
    lease_deposit := d.lease_info.bind (·.deposit),
    lease_monthly_payment := d.lease_info.bind (·.monthly_payment),
    lease_term_months := d.lease_info.bind (·.lease_term_months),
    lease_total_monthly_cost := save_ltmc d,
    final_payment := d.lease_info.bind (·.final_payment) }

/-- `EncarDatabase.save_listing`: upsert of one acquired listing, returning
the classification label (`"new"` or `"updated"`) together with the new
table state. -/
def save_listing (env : Env) (d : ListingData) (cfg : Option NewListingCriteria)
    (st : Store) : String × Store :=
  match lookup st d.car_id with
  | some ex =>
    ("updated",
     st.map fun r => if r.car_id = d.car_id then save_update_row env d ex r else r)
  | none =>
    ("new", st ++ [save_new_record env d cfg st])

/-- `if x is not None: <set field>` — the guard around each optional field
of `update_listing`'s dynamically built `UPDATE`. -/
def set_opt {α : Type} (set : ListingRecord → α → ListingRecord) (o : Option α)
    (r : ListingRecord) : ListingRecord :=
  match o with
  | some v => set r v
  | none => r

/-- `update_listing`'s handling of a provided `registration_date`: set the
field and recompute `days_since_registration` when the date parses. -/
def update_row_rd (env : Env) (r : ListingRecord) (s : String) : ListingRecord :=
  let r := { r with registration_date := some s }
  match calculate_days_since_registration env s with
  | some dsr => { r with days_since_registration := some dsr }
  | none => r

/-- The individual column setters of `update_listing`'s dynamic `UPDATE`. -/
def set_views (r : ListingRecord) (v : Int) : ListingRecord := { r with views := v }

/-- `is_lease = ?`. -/
def set_is_lease (r : ListingRecord) (b : Bool) : ListingRecord := { r with is_lease := b }

/-- `price = ?` (from `lease_info['estimated_price']`). -/
def set_price_col (r : ListingRecord) (p : Int) : ListingRecord := { r with price := some p }

/-- `true_price = ?` (from `lease_info['total_cost']`). -/
def set_true_price_col (r : ListingRecord) (p : Int) : ListingRecord := { r with true_price := some p }

/-- `lease_deposit = ?`. -/
def set_lease_deposit_col (r : ListingRecord) (p : Int) : ListingRecord := { r with lease_deposit := some p }

/-- `lease_monthly_payment = ?`. -/
def set_lease_monthly_col (r : ListingRecord) (p : Int) : ListingRecord := { r with lease_monthly_payment := some p }

/-- `lease_term_months = ?`. -/
def set_lease_term_col (r : ListingRecord) (p : Int) : ListingRecord := { r with lease_term_months := some p }

/-- `lease_total_monthly_cost = ?`. -/
def set_lease_total_col (r : ListingRecord) (p : Int) : ListingRecord := { r with lease_total_monthly_cost := some p }

/-- `final_payment = ?`. -/
def set_final_payment_col (r : ListingRecord) (p : Int) : ListingRecord := { r with final_payment := some p }

/-- `update_listing`'s handling of a provided `lease_info` dict: each present
component sets its column. -/
def update_row_li (r : ListingRecord) (li : LeaseInfo) : ListingRecord :=
  let r := set_opt set_price_col li.estimated_price r
  let r := set_opt set_true_price_col li.total_cost r
  let r := set_opt set_lease_deposit_col li.deposit r
  let r := set_opt set_lease_monthly_col li.monthly_payment r
  let r := set_opt set_lease_term_col li.lease_term_months r
  let r := set_opt set_lease_total_col li.total_monthly_cost r
  set_opt set_final_payment_col li.final_payment r

/-- The full row-rewrite of `update_listing`: the provided fields in the
source's order, then `last_updated`, which is always set. -/
def update_row (env : Env) (views : Option Int) (registration_date : Option String)
    (is_lease : Option Bool) (lease_info : Option LeaseInfo)
    (r : ListingRecord) : ListingRecord :=
  let r := set_opt set_views views r
  let r := set_opt (update_row_rd env) registration_date r
  let r := set_opt set_is_lease is_lease r
  let r := set_opt update_row_li lease_info r
  { r with last_updated := env.now }

/-- `EncarDatabase.update_listing`: dynamic `UPDATE` of the provided fields
plus `last_updated`, over every row whose `car_id` matches. -/
def update_listing (env : Env) (cid : String) (views : Option Int)
    (registration_date : Option String) (is_lease : Option Bool)
    (lease_info : Option LeaseInfo) (st : Store) : Bool × Store :=
  (true,
   st.map fun r =>
     if r.car_id = cid then update_row env views registration_date is_lease lease_info r
     else r)

/-- `EncarDatabase.mark_listing_closed`: when a row with this id exists,
set `is_closed = 1`, record the closure type and timestamps. -/
def mark_listing_closed (env : Env) (cid : String) (closure_type : String)
    (st : Store) : Bool × Store :=
  if listing_exists st cid then
    (true,
     st.map fun r =>
       if r.car_id = cid then
         { r with is_closed := true, closure_detected_at := some env.now,
                  closure_type := some closure_type, last_updated := env.now }
       else r)
  else (false, st)

/-- `EncarDatabase.get_active_listings`:
`SELECT ... WHERE is_closed = 0 ORDER BY first_seen DESC`. -/
def get_active_listings (st : Store) : List ListingRecord :=
  List.insertionSort (fun a b => b.first_seen ≤ a.first_seen)
    (st.filter fun r => !r.is_closed)

/-- The `SELECT` of `EncarDatabase.get_truly_new_listings`: rows that are
truly new, coupe, first seen within the window and not closed, ordered by
`first_seen DESC`. -/
def truly_new_selected (env : Env) (minutes_threshold : Int) (st : Store) :
    List ListingRecord :=
  List.insertionSort (fun a b => b.first_seen ≤ a.first_seen)
    (st.filter fun r =>
      r.is_truly_new && r.is_coupe && decide (env.now - minutes_threshold ≤ r.first_seen)
        && !r.is_closed)

/-- `EncarDatabase.get_truly_new_listings`: return the selected rows and, in
the same call, clear `is_truly_new` on exactly the selected ids. -/
def get_truly_new_listings (env : Env) (minutes_threshold : Int) (st : Store) :
    List ListingRecord × Store :=
  (truly_new_selected env minutes_threshold st,
   if (truly_new_selected env minutes_threshold st).isEmpty then st
   else st.map fun r =>
     if ((truly_new_selected env minutes_threshold st).map (·.car_id)).contains r.car_id
     then { r with is_truly_new := false } else r)

/-- `EncarDatabase.cleanup_old_listings`: count then delete the rows with
`first_seen <` the cutoff (`now` minus the retention parameter, in days);
return the deleted count. -/
def cleanup_old_listings (env : Env) (days_to_keep : Int) (st : Store) :
    Nat × Store :=
  let cutoff := env.now - days_to_keep
  ((st.filter fun r => decide (r.first_seen < cutoff)).length,
   st.filter fun r => !decide (r.first_seen < cutoff))

/-- `EncarDatabase.is_first_run`: the `listings` table is empty. -/
def is_first_run (st : Store) : Bool := st.isEmpty

/-! ### `monetary_utils.py` -/

/-- `calculate_lease_true_cost` (the `final_payment` parameter defaults to 0
in the source; the arithmetic cannot raise, so the `except` branch is dead). -/
def calculate_lease_true_cost (deposit monthly_payment : ℚ) (term_months : ℤ)
    (final_payment : ℚ) : ℚ :=
  let total_monthly_cost := monthly_payment * (term_months : ℚ)
  deposit + total_monthly_cost + final_payment

/-! ### `closure_scanner.py` -/

/-- The rendered page as `detect_closure_indicators` observes it: title,
raw content, final URL, and the results of the DOM queries the function
issues (`query_selector` returning the text content of the first match, or
`none`). `contentExn` marks a run in which reading the page content raised,
which the function's outer `except` turns into a not-closed result. -/
structure Page where
  title : String := ""
  content : String := ""
  url : String := ""
  detailNoneText : Option String := none
  broadTexts : List (Option String) := []
  errorTexts : List (Option String) := []
  contentExn : Bool := false
deriving Repr, DecidableEq

/-- The exact closure message anchoring the `DetailNone` check. -/
def detail_none_message : String := "이 차량은 판매되었거나 삭제된 차량입니다"

/-- `error_titles` from `detect_closure_indicators`. -/
def error_titles : List String :=
  ["404", "not found", "page not found", "error",
   "페이지를 찾을 수 없습니다", "존재하지 않는", "오류"]

/-- `specific_closure_messages` from `detect_closure_indicators`. -/
def specific_closure_messages : List String :=
  ["이 차량은 판매되었거나 삭제된 차량입니다",
   "차량정보가 존재하지 않습니다",
   "해당 매물을 찾을 수 없습니다",
   "삭제되었거나 존재하지 않는",
   "판매가 완료된 차량"]

/-- `ClosureScanner.detect_closure_indicators`: returns the closure type
when an indicator fires, `none` when the page looks active (including the
defensive `except` branch, which reports not-closed). -/
def detect_closure_indicators (p : Page) : Option String :=
  if p.contentExn then none
  else if (match p.detailNoneText with
           | some t => strContains t detail_none_message
           | none => false) then some "confirmed_closed"
  else if p.broadTexts.any (fun o =>
           match o with
           | some t => strContains t "판매되었거나 삭제된" || strContains t "판매완료"
           | none => false) then some "confirmed_closed"
  else if error_titles.any (fun et => listContains (strLower p.title) et.data) then
    some "error_page"
  else if specific_closure_messages.any (fun m => strContains p.content m) then
    some "confirmed_message"
  else if p.errorTexts.any (fun o =>
           match o with
           | some t => decide (10 < (stripChars t.data).length)
           | none => false) then some "error_element"
  else if strContains (String.mk (strLower p.url)) "error" || strContains p.url "404"
          || strContains p.url "notfound" then some "redirect_error"
  else none

/-- What one navigation to a listing URL produced: the outer browser launch
raised (`launchExn`), `page.goto` raised (`navExn`), `goto` returned no
response, or a response with an HTTP status and the page it rendered. -/
inductive PageOutcome where
  | launchExn
  | navExn
  | noResponse
  | resp (status : Nat) (page : Page)
deriving Repr, DecidableEq

/-- The dict returned by `ClosureScanner.check_listing_status`. -/
structure CheckStatus where
  is_active : Bool
  closure_type : Option String
  error : Option String
deriving Repr, DecidableEq

/-- `ClosureScanner.check_listing_status` as a function of the navigation
outcome for the listing's URL. -/
def check_listing_status (o : PageOutcome) : CheckStatus :=
  match o with
  | .launchExn => ⟨false, some "check_error", some "exception"⟩
  | .navExn => ⟨false, some "access_error", some "exception"⟩
  | .noResponse => ⟨false, some "no_response", some "No response from server"⟩
  | .resp status page =>
    if status = 404 then
      ⟨false, some "error_404", some "Page not found (404)"⟩
    else if 400 ≤ status then
      ⟨false, some ("error_" ++ toString status), some ("HTTP error " ++ toString status)⟩
    else
      match detect_closure_indicators page with
      | some ct => ⟨false, some ct, none⟩
      | none => ⟨true, none, none⟩

/-- The fixed set of closure-type literals the scanner can record (the ones
the specification's closure-reason taxonomy names; `error_404` is the member
the spec calls `http-404`). -/
def closure_reason_taxonomy : List String :=
  ["confirmed_closed", "error_page", "confirmed_message", "error_element",
   "redirect_error", "error_404", "no_response", "access_error", "check_error"]

/-- The running counters of `scan_listings_for_closure`. -/
structure ScanCounters where
  total_checked : Nat := 0
  closed_found : Nat := 0
  errors : Nat := 0
  still_active : Nat := 0
deriving Repr, DecidableEq

/-- The per-listing body of the scan loop in
`ClosureScanner.scan_listings_for_closure`: check the URL, then count, and
mark the listing closed on a page-level closure indication or on one of the
two unambiguous network-level error signals (`error_404`, `no_response`). -/
def scan_step (env : Env) (oracle : String → PageOutcome)
    (acc : ScanCounters × Store) (r : ListingRecord) : ScanCounters × Store :=
  let status := check_listing_status (oracle r.listing_url)
  let c := { acc.1 with total_checked := acc.1.total_checked + 1 }
  if status.error.isSome then
    let c := { c with errors := c.errors + 1 }
    if status.closure_type = some "error_404" ∨ status.closure_type = some "no_response" then
      ({ c with closed_found := c.closed_found + 1 },
       (mark_listing_closed env r.car_id (optStr status.closure_type) acc.2).2)
    else (c, acc.2)
  else if !status.is_active then
    ({ c with closed_found := c.closed_found + 1 },
     (mark_listing_closed env r.car_id (optStr status.closure_type) acc.2).2)
  else ({ c with still_active := c.still_active + 1 }, acc.2)

/-- The input set of one scan pass (`scan_listings_for_closure` before its
loop): the active listings, restricted to those first seen at least
`max_age_days` ago (in the model a timestamp always parses, so the
include-on-parse-failure branch is dead), optionally truncated to
`max_listings`. -/
def closure_scan_aged (env : Env) (max_age_days : Int) (st : Store) :
    List ListingRecord :=
  if max_age_days > 0 then
    (get_active_listings st).filter fun r => decide (r.first_seen ≤ env.now - max_age_days)
  else get_active_listings st

/-- ... and the optional `max_listings` truncation on top of the age filter. -/
def closure_scan_list (env : Env) (max_listings : Option Nat)
    (max_age_days : Int) (st : Store) : List ListingRecord :=
  match max_listings with
  | some m =>
    if (closure_scan_aged env max_age_days st).length > m then
      (closure_scan_aged env max_age_days st).take m
    else closure_scan_aged env max_age_days st
  | none => closure_scan_aged env max_age_days st

/-- `ClosureScanner.scan_listings_for_closure`: run the scan loop over the
input set. -/
def scan_listings_for_closure (env : Env) (oracle : String → PageOutcome)
    (max_listings : Option Nat) (max_age_days : Int) (st : Store) :
    ScanCounters × Store :=
  (closure_scan_list env max_listings max_age_days st).foldl
    (scan_step env oracle) ({}, st)

/-! ### `encar_api_client.py` -/

/-- The parsed JSON payload of a successful list query (`Count` and
`SearchResults`, with `convert_api_item_to_listing` already applied to each
item — the conversion is pure per-item reshaping at the acquisition
boundary). -/
structure ApiData where
  search_results : List ListingData := []
  count : Nat := 0
deriving Repr, DecidableEq

/-- The in-memory session of `EncarAPIClient`: harvested cookies and
headers plus the expiry timestamp (`auth_valid_until`; `none` means
invalidated). -/
structure Session where
  cookies : List (String × String) := []
  headers : List (String × String) := []
  auth_valid_until : Option Int := none
deriving Repr, DecidableEq

/-- Outcome of one direct (non-browser) HTTP attempt: parsed JSON on 200, a
bare status code otherwise, or a raised connection error. -/
inductive DirectResult where
  | ok (d : ApiData)
  | status (code : Nat)
  | exn
deriving Repr, DecidableEq

/-- The page rendered by the browser fallback when it navigates to the API
URL: HTTP status, the JSON found inside a `<pre>` block if any, and the
JSON parsed from the body text if any. -/
structure BrowserPage where
  status : Nat := 0
  preJson : Option ApiData := none
  innerJson : Option ApiData := none
deriving Repr, DecidableEq

/-- Environment of one client run: the clock, and oracles giving the k-th
direct response, the k-th browser-fallback page (`none` when the fallback
itself raised) and the k-th result of `extract_authentication` (`none` when
it failed). -/
structure ClientEnv where
  now : Int
  direct : Nat → DirectResult
  browser : Nat → Option BrowserPage
  fresh : Nat → Option Session

/-- Observable actions of one `make_api_request` run, in order. -/
inductive ClientEvent where
  | direct_attempt
  | browser_attempt
  | session_rebuild
deriving Repr, DecidableEq

/-- Client state threaded through a `make_api_request` run: the session and
the indices into the three oracles, plus the event trace. -/
structure ClientState where
  session : Session
  attempt_idx : Nat := 0
  browser_idx : Nat := 0
  rebuild_idx : Nat := 0
  events : List ClientEvent := []
deriving Repr, DecidableEq

/-- `EncarAPIClient.is_auth_valid`. -/
def is_auth_valid (now : Int) (s : Session) : Bool :=
  match s.auth_valid_until with
  | none => false
  | some t => decide (now < t)

/-- `EncarAPIClient.ensure_authenticated`: keep a valid session, otherwise
run `extract_authentication`; `none` is the failure that
`make_api_request` turns into a raised exception. -/
def ensure_authenticated (env : ClientEnv) (cs : ClientState) : Option ClientState :=
  if is_auth_valid env.now cs.session then some cs
  else
    match env.fresh cs.rebuild_idx with
    | some s =>
      some { cs with session := s, rebuild_idx := cs.rebuild_idx + 1,
                     events := cs.events ++ [.session_rebuild] }
    | none => none

/-- `EncarAPIClient.make_api_request_with_browser`: only a 200 page yields
data, taken from the `<pre>`-wrapped JSON if present, else from the body
text; everything else (including a raised exception, `none` page) yields
`None`. -/
def make_api_request_with_browser (pg : Option BrowserPage) : Option ApiData :=
  match pg with
  | none => none
  | some p =>
    if p.status = 200 then
      match p.preJson with
      | some d => some d
      | none => p.innerJson
    else none

/-- `EncarAPIClient.make_api_request`, with the remaining retry budget in
place of the source's ascending `retry_count` (`budget = max_retries -
retry_count`, so the source's `retry_count < max_retries` guard is
`budget > 0`). A 407 answer first drives the same request through the
browser and only on browser failure invalidates the session and retries; a
403/401 answer invalidates the session and retries; other failures and
raised errors return `none` (the catch-all `except`). -/
def make_api_request_go (env : ClientEnv) : Nat → ClientState →
    Option ApiData × ClientState
  | budget, cs =>
    match ensure_authenticated env cs with
    | none => (none, cs)
    | some cs1 =>
      let cs2 := { cs1 with attempt_idx := cs1.attempt_idx + 1,
                            events := cs1.events ++ [.direct_attempt] }
      match env.direct cs1.attempt_idx with
      | .ok d => (some d, cs2)
      | .exn => (none, cs2)
      | .status code =>
        if code = 407 then
          let cs3 := { cs2 with browser_idx := cs2.browser_idx + 1,
                                events := cs2.events ++ [.browser_attempt] }
          match make_api_request_with_browser (env.browser cs2.browser_idx) with
          | some d => (some d, cs3)
          | none =>
            match budget with
            | b + 1 =>
              make_api_request_go env b
                { cs3 with session := { cs3.session with auth_valid_until := none } }
            | 0 => (none, cs3)
        else if code = 403 ∨ code = 401 then
          match budget with
          | b + 1 =>
            make_api_request_go env b
              { cs2 with session := { cs2.session with auth_valid_until := none } }
          | 0 => (none, cs2)
        else (none, cs2)

/-- `max_retries` from `make_api_request`. -/
def max_retries : Nat := 3

/-- `make_api_request` entered at `retry_count = 0`. -/
def make_api_request (env : ClientEnv) (s : Session) :
    Option ApiData × ClientState :=
  make_api_request_go env max_retries { session := s }

/-- `EncarAPIClient.get_listings`: a `None` payload becomes the empty page
`([], 0)`; otherwise `Count` and the converted `SearchResults`. -/
def get_listings (env : ClientEnv) (s : Session) :
    (List ListingData × Nat) × ClientState :=
  match make_api_request env s with
  | (none, cs) => (([], 0), cs)
  | (some d, cs) => ((d.search_results, d.count), cs)

/-! ### Orchestrator (`encar_monitor_api.py`), at the acquisition boundary -/

/-- `EncarScraperAPI.scrape_with_filters`, one page: the client page
filtered to coupes. An exhausted acquisition returns the empty list (the
page loop stops at the first empty page, so the single-page model agrees
with the source whenever acquisition fails). -/
def scrape_with_filters (cenv : ClientEnv) (s : Session) : List ListingData :=
  ((get_listings cenv s).1.1.filter fun d => d.is_coupe)

/-- Monitor state the cycles touch: the store and the cycle counter. -/
structure MonitorState where
  store : Store
  check_count : Nat := 0
deriving Repr, DecidableEq

/-- `EncarMonitorAPI.run_regular_monitoring`: acquire one batch; when it is
empty, log and return; otherwise classify and persist every listing
(notification hand-off is the external collaborator and carries no store
state). Per-listing failures are caught in the source loop; the embedded
loop is total. -/
def run_regular_monitoring (env : Env) (cenv : ClientEnv)
    (cfg : NewListingCriteria) (s : Session) (m : MonitorState) : MonitorState :=
  let listings := scrape_with_filters cenv s
  if listings.isEmpty then m
  else { m with store := listings.foldl (fun st d => (save_listing env d (some cfg) st).2) m.store }

/-- `EncarMonitorAPI.run_initial_population`: same acquisition and persist
loop on first run. -/
def run_initial_population (env : Env) (cenv : ClientEnv)
    (cfg : NewListingCriteria) (s : Session) (m : MonitorState) : MonitorState :=
  let listings := scrape_with_filters cenv s
  if listings.isEmpty then m
  else { m with store := listings.foldl (fun st d => (save_listing env d (some cfg) st).2) m.store }

/-- `EncarMonitorAPI.run_monitoring_cycle`: bump the cycle counter, then run
population on an empty store and the regular scan otherwise; the catch-all
`except` makes the cycle total, so a failed acquisition never escapes the
cycle. -/
def run_monitoring_cycle (env : Env) (cenv : ClientEnv)
    (cfg : NewListingCriteria) (s : Session) (m : MonitorState) : MonitorState :=
  let m1 := { m with check_count := m.check_count + 1 }
  if is_first_run m1.store then run_initial_population env cenv cfg s m1
  else run_regular_monitoring env cenv cfg s m1

/-- `EncarMonitorAPI.cleanup_old_data`: the weekly cycle delegating to
`cleanup_old_listings` with the configured retention. -/
def cleanup_old_data (env : Env) (backup_days : Int) (m : MonitorState) : MonitorState :=
  { m with store := (cleanup_old_listings env backup_days m.store).2 }

/-! ### Store operations, as a transition system (for the invariants) -/

/-- One store-mutating call of the modelled operation set. -/
inductive StoreOp where
  | save (d : ListingData) (cfg : Option NewListingCriteria)
  | update (cid : String) (views : Option Int) (rd : Option String)
           (il : Option Bool) (li : Option LeaseInfo)
  | markClosed (cid : String) (ct : String)
  | readTrulyNew (minutes : Int)

/-- Apply one operation to the store. -/
def apply_store_op (env : Env) (op : StoreOp) (st : Store) : Store :=
  match op with
  | .save d cfg => (save_listing env d cfg st).2
  | .update cid v rd il li => (update_listing env cid v rd il li st).2
  | .markClosed cid ct => (mark_listing_closed env cid ct st).2
  | .readTrulyNew minutes => (get_truly_new_listings env minutes st).2

/-- Apply a sequence of operations, each at its own time/environment. -/
def apply_store_ops (ops : List (Env × StoreOp)) (st : Store) : Store :=
  ops.foldl (fun st p => apply_store_op p.1 p.2 st) st

end Encar

namespace Encar

/-! ### Small sanity checks of the primitives -/

example : strContains "hello" "ell" = true := by decide

example : strLower "AbC" = ['a', 'b', 'c'] := by decide

example : stripChars "  ab  ".data = ['a', 'b'] := by decide

/-! ### Lookup and table-rewrite lemmas -/

theorem lookup_map_pres {g : ListingRecord → ListingRecord}
    (hg : ∀ x, (g x).car_id = x.car_id) (st : Store) (cid : String) :
    lookup (st.map g) cid = (lookup st cid).map g := by
  induction st with
  | nil => rfl
  | cons a l ih =>
    by_cases h : a.car_id = cid
    · simp [lookup, List.find?_cons, hg, h]
    · simpa [lookup, List.find?_cons, hg, h] using ih

theorem lookup_append_of_some {st : Store} {cid : String} {r : ListingRecord}
    (l : List ListingRecord) (h : lookup st cid = some r) :
    lookup (st ++ l) cid = some r := by
  induction st with
  | nil => simp [lookup] at h
  | cons a t ih =>
    by_cases ha : a.car_id = cid
    · simpa [lookup, List.find?_cons, ha] using h
    · have h' : lookup t cid = some r := by simpa [lookup, List.find?_cons, ha] using h
      simpa [lookup, List.find?_cons, ha] using ih h'

theorem mem_of_lookup_eq_some {st : Store} {cid : String} {r : ListingRecord}
    (h : lookup st cid = some r) : r ∈ st ∧ r.car_id = cid := by
  refine ⟨List.mem_of_find?_eq_some h, ?_⟩
  have := List.find?_some h
  simpa using this

theorem listing_exists_eq_isSome (st : Store) (cid : String) :
    listing_exists st cid = (lookup st cid).isSome := by
  induction st with
  | nil => rfl
  | cons a l ih =>
    by_cases h : a.car_id = cid
    · simp [listing_exists, lookup, List.find?_cons, h]
    · simpa [listing_exists, lookup, List.find?_cons, h] using ih

theorem lookup_of_mem_nodup {st : Store} {r : ListingRecord}
    (hnd : (st.map (·.car_id)).Nodup) (hmem : r ∈ st) :
    lookup st r.car_id = some r := by
  induction st with
  | nil => simp at hmem
  | cons a l ih =>
    rcases List.mem_cons.mp hmem with h | h
    · subst h; simp [lookup, List.find?_cons]
    · have hne : a.car_id ≠ r.car_id := by
        intro he
        have : r.car_id ∈ l.map (·.car_id) := List.mem_map_of_mem _ h
        simp only [List.map_cons, List.nodup_cons] at hnd
        exact hnd.1 (he ▸ this)
      have hnd' : (l.map (·.car_id)).Nodup := by
        simp only [List.map_cons, List.nodup_cons] at hnd
        exact hnd.2
      simpa [lookup, List.find?_cons, hne] using ih hnd' h

/-! ### Shapes of the store operations -/

/-- The row-rewrite applied by `mark_listing_closed`. -/
def mark_row (env : Env) (cid : String) (ct : String) (r : ListingRecord) :
    ListingRecord :=
  if r.car_id = cid then
    { r with is_closed := true, closure_detected_at := some env.now,
             closure_type := some ct, last_updated := env.now }
  else r

theorem mark_store_eq (env : Env) (cid ct : String) (st : Store) :
    (mark_listing_closed env cid ct st).2 =
      if listing_exists st cid then st.map (mark_row env cid ct) else st := by
  simp only [mark_listing_closed, mark_row]
  split <;> rfl

theorem mark_row_carId (env : Env) (cid ct : String) (r : ListingRecord) :
    (mark_row env cid ct r).car_id = r.car_id := by
  simp only [mark_row]; split <;> rfl

theorem mark_row_closed_mono (env : Env) (cid ct : String) (r : ListingRecord)
    (h : r.is_closed = true) : (mark_row env cid ct r).is_closed = true := by
  simp only [mark_row]; split <;> simp [h]

theorem mark_row_trulyNew (env : Env) (cid ct : String) (r : ListingRecord) :
    (mark_row env cid ct r).is_truly_new = r.is_truly_new := by
  simp only [mark_row]; split <;> rfl

theorem mark_lookup_other (env : Env) {cid' cid : String} (ct : String)
    (st : Store) (hne : cid' ≠ cid) :
    lookup (mark_listing_closed env cid' ct st).2 cid = lookup st cid := by
  rw [mark_store_eq]
  split
  · rw [lookup_map_pres (mark_row_carId env cid' ct) st cid]
    cases hl : lookup st cid with
    | none => rfl
    | some r =>
      have hr := mem_of_lookup_eq_some hl
      have : mark_row env cid' ct r = r := by
        simp only [mark_row, hr.2]
        exact if_neg (fun he => hne he.symm)
      simp [this]
  · rfl

theorem mark_lookup_self (env : Env) {cid : String} (ct : String) {st : Store}
    {r : ListingRecord} (h : lookup st cid = some r) :
    lookup (mark_listing_closed env cid ct st).2 cid =
      some { r with is_closed := true, closure_detected_at := some env.now,
                    closure_type := some ct, last_updated := env.now } := by
  rw [mark_store_eq]
  have hex : listing_exists st cid = true := by
    rw [listing_exists_eq_isSome, h]; rfl
  rw [if_pos hex, lookup_map_pres (mark_row_carId env cid ct) st cid, h]
  have hr := mem_of_lookup_eq_some h
  simp [mark_row, hr.2]

theorem mark_map_carId (env : Env) (cid ct : String) (st : Store) :
    ((mark_listing_closed env cid ct st).2).map (·.car_id) = st.map (·.car_id) := by
  rw [mark_store_eq]
  split
  · rw [List.map_map]
    exact List.map_congr_left (fun x _ => mark_row_carId env cid ct x)
  · rfl

/-- Projection through `set_opt`: a setter that leaves a field alone leaves
it alone whether or not the optional value is present. -/
theorem set_opt_proj {α β : Type} (f : ListingRecord → β)
    (set : ListingRecord → α → ListingRecord) (o : Option α) (r : ListingRecord)
    (hset : ∀ r v, f (set r v) = f r) : f (set_opt set o r) = f r := by
  cases o with
  | none => rfl
  | some v => exact hset r v

theorem update_row_rd_carId (env : Env) (r : ListingRecord) (s : String) :
    (update_row_rd env r s).car_id = r.car_id := by
  unfold update_row_rd
  cases calculate_days_since_registration env s <;> rfl

theorem update_row_rd_closed (env : Env) (r : ListingRecord) (s : String) :
    (update_row_rd env r s).is_closed = r.is_closed := by
  unfold update_row_rd
  cases calculate_days_since_registration env s <;> rfl

theorem update_row_rd_trulyNew (env : Env) (r : ListingRecord) (s : String) :
    (update_row_rd env r s).is_truly_new = r.is_truly_new := by
  unfold update_row_rd
  cases calculate_days_since_registration env s <;> rfl

theorem update_row_li_carId (r : ListingRecord) (li : LeaseInfo) :
    (update_row_li r li).car_id = r.car_id := by
  unfold update_row_li
  rw [set_opt_proj (·.car_id) set_final_payment_col li.final_payment _ (fun _ _ => rfl),
      set_opt_proj (·.car_id) set_lease_total_col li.total_monthly_cost _ (fun _ _ => rfl),
      set_opt_proj (·.car_id) set_lease_term_col li.lease_term_months _ (fun _ _ => rfl),
      set_opt_proj (·.car_id) set_lease_monthly_col li.monthly_payment _ (fun _ _ => rfl),
      set_opt_proj (·.car_id) set_lease_deposit_col li.deposit _ (fun _ _ => rfl),
      set_opt_proj (·.car_id) set_true_price_col li.total_cost _ (fun _ _ => rfl),
      set_opt_proj (·.car_id) set_price_col li.estimated_price _ (fun _ _ => rfl)]

theorem update_row_li_closed (r : ListingRecord) (li : LeaseInfo) :
    (update_row_li r li).is_closed = r.is_closed := by
  unfold update_row_li
  rw [set_opt_proj (·.is_closed) set_final_payment_col li.final_payment _ (fun _ _ => rfl),
      set_opt_proj (·.is_closed) set_lease_total_col li.total_monthly_cost _ (fun _ _ => rfl),
      set_opt_proj (·.is_closed) set_lease_term_col li.lease_term_months _ (fun _ _ => rfl),
      set_opt_proj (·.is_closed) set_lease_monthly_col li.monthly_payment _ (fun _ _ => rfl),
      set_opt_proj (·.is_closed) set_lease_deposit_col li.deposit _ (fun _ _ => rfl),
      set_opt_proj (·.is_closed) set_true_price_col li.total_cost _ (fun _ _ => rfl),
      set_opt_proj (·.is_closed) set_price_col li.estimated_price _ (fun _ _ => rfl)]

theorem update_row_li_trulyNew (r : ListingRecord) (li : LeaseInfo) :
    (update_row_li r li).is_truly_new = r.is_truly_new := by
  unfold update_row_li
  rw [set_opt_proj (·.is_truly_new) set_final_payment_col li.final_payment _ (fun _ _ => rfl),
      set_opt_proj (·.is_truly_new) set_lease_total_col li.total_monthly_cost _ (fun _ _ => rfl),
      set_opt_proj (·.is_truly_new) set_lease_term_col li.lease_term_months _ (fun _ _ => rfl),
      set_opt_proj (·.is_truly_new) set_lease_monthly_col li.monthly_payment _ (fun _ _ => rfl),
      set_opt_proj (·.is_truly_new) set_lease_deposit_col li.deposit _ (fun _ _ => rfl),
      set_opt_proj (·.is_truly_new) set_true_price_col li.total_cost _ (fun _ _ => rfl),
      set_opt_proj (·.is_truly_new) set_price_col li.estimated_price _ (fun _ _ => rfl)]

theorem update_row_carId (env : Env) (v : Option Int) (rd : Option String)
    (il : Option Bool) (li : Option LeaseInfo) (r : ListingRecord) :
    (update_row env v rd il li r).car_id = r.car_id := by
  unfold update_row
  rw [show ∀ (x : ListingRecord), ({ x with last_updated := env.now } : ListingRecord).car_id = x.car_id from fun _ => rfl,
      set_opt_proj (·.car_id) update_row_li li _ update_row_li_carId,
      set_opt_proj (·.car_id) set_is_lease il _ (fun _ _ => rfl),
      set_opt_proj (·.car_id) (update_row_rd env) rd _ (update_row_rd_carId env),
      set_opt_proj (·.car_id) set_views v _ (fun _ _ => rfl)]

theorem update_row_closed (env : Env) (v : Option Int) (rd : Option String)
    (il : Option Bool) (li : Option LeaseInfo) (r : ListingRecord) :
    (update_row env v rd il li r).is_closed = r.is_closed := by
  unfold update_row
  rw [show ∀ (x : ListingRecord), ({ x with last_updated := env.now } : ListingRecord).is_closed = x.is_closed from fun _ => rfl,
      set_opt_proj (·.is_closed) update_row_li li _ update_row_li_closed,
      set_opt_proj (·.is_closed) set_is_lease il _ (fun _ _ => rfl),
      set_opt_proj (·.is_closed) (update_row_rd env) rd _ (update_row_rd_closed env),
      set_opt_proj (·.is_closed) set_views v _ (fun _ _ => rfl)]

theorem update_row_trulyNew (env : Env) (v : Option Int) (rd : Option String)
    (il : Option Bool) (li : Option LeaseInfo) (r : ListingRecord) :
    (update_row env v rd il li r).is_truly_new = r.is_truly_new := by
  unfold update_row
  rw [show ∀ (x : ListingRecord), ({ x with last_updated := env.now } : ListingRecord).is_truly_new = x.is_truly_new from fun _ => rfl,
      set_opt_proj (·.is_truly_new) update_row_li li _ update_row_li_trulyNew,
      set_opt_proj (·.is_truly_new) set_is_lease il _ (fun _ _ => rfl),
      set_opt_proj (·.is_truly_new) (update_row_rd env) rd _ (update_row_rd_trulyNew env),
      set_opt_proj (·.is_truly_new) set_views v _ (fun _ _ => rfl)]

/-! ### Shape of `save_listing` and of the notification read -/

theorem lookup_eq_none_iff {st : Store} {cid : String} :
    lookup st cid = none ↔ ∀ x ∈ st, x.car_id ≠ cid := by
  simp [lookup, List.find?_eq_none]

/-- `save_listing` either rewrites rows in place (re-observation) without
touching `is_closed`, `is_truly_new`, `first_seen` or any `car_id`, or
appends one fresh row for an id that was absent. -/
theorem save_listing_snd_cases (env : Env) (d : ListingData)
    (cfg : Option NewListingCriteria) (st : Store) :
    (∃ g : ListingRecord → ListingRecord,
       (∀ x, (g x).car_id = x.car_id) ∧ (∀ x, (g x).is_closed = x.is_closed) ∧
       (∀ x, (g x).is_truly_new = x.is_truly_new) ∧
       (∀ x, (g x).first_seen = x.first_seen) ∧
       (save_listing env d cfg st).2 = st.map g) ∨
    (lookup st d.car_id = none ∧
     ∃ rec : ListingRecord, rec.car_id = d.car_id ∧
       (save_listing env d cfg st).2 = st ++ [rec]) := by
  cases h : lookup st d.car_id with
  | some ex =>
    left
    refine ⟨fun r => if r.car_id = d.car_id then save_update_row env d ex r else r,
      ?_, ?_, ?_, ?_, ?_⟩
    · intro x; dsimp only; split <;> rfl
    · intro x; dsimp only; split <;> rfl
    · intro x; dsimp only; split <;> rfl
    · intro x; dsimp only; split <;> rfl
    · simp only [save_listing, h]
  | none =>
    right
    exact ⟨rfl, ⟨save_new_record env d cfg st, rfl, by simp only [save_listing, h]⟩⟩

/-- The read of `get_truly_new_listings` either leaves the table alone (no
hit) or clears `is_truly_new` on the selected ids, touching nothing else. -/
theorem read_snd_cases (env : Env) (mt : Int) (st : Store) :
    (get_truly_new_listings env mt st).2 = st ∨
    (∃ g : ListingRecord → ListingRecord,
       (∀ x, (g x).car_id = x.car_id) ∧ (∀ x, (g x).is_closed = x.is_closed) ∧
       (∀ x, x.is_truly_new = false → (g x).is_truly_new = false) ∧
       (∀ x, (g x).first_seen = x.first_seen) ∧
       (get_truly_new_listings env mt st).2 = st.map g) := by
  by_cases h : (truly_new_selected env mt st).isEmpty
  · left; simp only [get_truly_new_listings, h, if_true]
  · right
    refine ⟨fun r =>
      if ((truly_new_selected env mt st).map (·.car_id)).contains r.car_id
      then { r with is_truly_new := false } else r, ?_, ?_, ?_, ?_, ?_⟩
    · intro x; dsimp only; split <;> rfl
    · intro x; dsimp only; split <;> rfl
    · intro x hx; dsimp only; split <;> simpa using hx
    · intro x; dsimp only; split <;> rfl
    · simp only [get_truly_new_listings]
      rw [if_neg h]

/-- Every row the notification read returns is a stored row flagged
truly-new, coupe, inside the window, and open. -/
theorem mem_read_fst {env : Env} {mt : Int} {st : Store} {x : ListingRecord}
    (hx : x ∈ (get_truly_new_listings env mt st).1) :
    x ∈ st ∧ x.is_truly_new = true ∧ x.is_coupe = true ∧
      env.now - mt ≤ x.first_seen ∧ x.is_closed = false := by
  have hmem : x ∈ st.filter (fun r =>
      r.is_truly_new && r.is_coupe && decide (env.now - mt ≤ r.first_seen)
        && !r.is_closed) := by
    have hperm := List.perm_insertionSort
      (fun a b : ListingRecord => b.first_seen ≤ a.first_seen)
      (st.filter fun r =>
        r.is_truly_new && r.is_coupe && decide (env.now - mt ≤ r.first_seen)
          && !r.is_closed)
    exact hperm.mem_iff.mp hx
  have := List.mem_filter.mp hmem
  refine ⟨this.1, ?_⟩
  have hb := this.2
  simp only [Bool.and_eq_true, Bool.not_eq_true', decide_eq_true_eq] at hb
  exact ⟨hb.1.1.1, hb.1.1.2, hb.1.2, hb.2⟩

/-! ### Scan-loop lemmas -/

/-- A scan step either leaves the table alone or marks the processed
listing's id closed. -/
theorem scan_step_store_cases (env : Env) (oracle : String → PageOutcome)
    (acc : ScanCounters × Store) (r : ListingRecord) :
    (scan_step env oracle acc r).2 = acc.2 ∨
    ∃ ct, (scan_step env oracle acc r).2 =
      (mark_listing_closed env r.car_id ct acc.2).2 := by
  simp only [scan_step]
  split
  · split
    · exact Or.inr ⟨_, rfl⟩
    · exact Or.inl rfl
  · split
    · exact Or.inr ⟨_, rfl⟩
    · exact Or.inl rfl

theorem scan_step_errors_mono (env : Env) (oracle : String → PageOutcome)
    (acc : ScanCounters × Store) (r : ListingRecord) :
    acc.1.errors ≤ (scan_step env oracle acc r).1.errors := by
  simp only [scan_step]
  split
  · split <;> simp
  · split <;> simp

theorem scan_fold_errors_mono (env : Env) (oracle : String → PageOutcome)
    (L : List ListingRecord) (acc : ScanCounters × Store) :
    acc.1.errors ≤ (L.foldl (scan_step env oracle) acc).1.errors := by
  induction L generalizing acc with
  | nil => exact le_rfl
  | cons x L ih =>
    exact le_trans (scan_step_errors_mono env oracle acc x) (ih _)

theorem scan_fold_lookup_const (env : Env) (oracle : String → PageOutcome)
    (L : List ListingRecord) (cid : String)
    (hL : ∀ x ∈ L, x.car_id ≠ cid) (acc : ScanCounters × Store) :
    lookup (L.foldl (scan_step env oracle) acc).2 cid = lookup acc.2 cid := by
  induction L generalizing acc with
  | nil => rfl
  | cons x L ih =>
    have hx : x.car_id ≠ cid := hL x (List.mem_cons_self x L)
    have hrest : ∀ y ∈ L, y.car_id ≠ cid := fun y hy => hL y (List.mem_cons_of_mem x hy)
    rw [List.foldl_cons, ih hrest]
    rcases scan_step_store_cases env oracle acc x with h | ⟨ct, h⟩
    · rw [h]
    · rw [h, mark_lookup_other env ct acc.2 hx]

theorem scan_fold_map_carId (env : Env) (oracle : String → PageOutcome)
    (L : List ListingRecord) (acc : ScanCounters × Store) :
    ((L.foldl (scan_step env oracle) acc).2).map (·.car_id) = acc.2.map (·.car_id) := by
  induction L generalizing acc with
  | nil => rfl
  | cons x L ih =>
    rw [List.foldl_cons, ih]
    rcases scan_step_store_cases env oracle acc x with h | ⟨ct, h⟩
    · rw [h]
    · rw [h, mark_map_carId]

/-- Splitting a list at a member whose key is unique in the list. -/
theorem nodup_map_split {α β : Type} {f : α → β} {L : List α} {r : α}
    (hnd : (L.map f).Nodup) (hmem : r ∈ L) :
    ∃ s t, L = s ++ r :: t ∧ (∀ x ∈ s, f x ≠ f r) ∧ (∀ x ∈ t, f x ≠ f r) := by
  obtain ⟨s, t, rfl⟩ := List.append_of_mem hmem
  refine ⟨s, t, rfl, ?_, ?_⟩
  · intro x hx he
    rw [List.map_append, List.map_cons] at hnd
    have := (List.nodup_append.mp hnd).2.2
    exact this (List.mem_map_of_mem f hx) (by simp [he])
  · intro x hx he
    rw [List.map_append, List.map_cons] at hnd
    have := ((List.nodup_append.mp hnd).2.1)
    rw [List.nodup_cons] at this
    exact this.1 (he ▸ List.mem_map_of_mem f hx)

/-- Members of the scan input set are open rows of the table. -/
theorem mem_closure_scan_list {env : Env} {ml : Option Nat} {mad : Int}
    {st : Store} {x : ListingRecord}
    (hx : x ∈ closure_scan_list env ml mad st) :
    x ∈ st ∧ x.is_closed = false := by
  have hsortmem : ∀ y ∈ List.insertionSort
      (fun a b : ListingRecord => b.first_seen ≤ a.first_seen)
      (st.filter fun r => !r.is_closed), y ∈ st ∧ y.is_closed = false := by
    intro y hy
    have : y ∈ st.filter (fun r => !r.is_closed) :=
      (List.perm_insertionSort _ _).mem_iff.mp hy
    have := List.mem_filter.mp this
    exact ⟨this.1, by simpa using this.2⟩
  have hfil : ∀ y ∈ closure_scan_aged env mad st, y ∈ st ∧ y.is_closed = false := by
    intro y hy
    simp only [closure_scan_aged] at hy
    split at hy
    · exact hsortmem y (List.mem_filter.mp hy).1
    · exact hsortmem y hy
  rcases ml with _ | m
  · exact hfil x hx
  · simp only [closure_scan_list] at hx
    by_cases hlen : (closure_scan_aged env mad st).length > m
    · rw [if_pos hlen] at hx
      exact hfil x ((List.take_sublist _ _).subset hx)
    · rw [if_neg hlen] at hx
      exact hfil x hx

/-- The id column stays duplicate-free along the scan input set. -/
theorem nodup_closure_scan_list {env : Env} {ml : Option Nat} {mad : Int}
    {st : Store} (hnd : (st.map (·.car_id)).Nodup) :
    ((closure_scan_list env ml mad st).map (·.car_id)).Nodup := by
  have hfilter : ((st.filter fun r => !r.is_closed).map (·.car_id)).Nodup :=
    ((List.filter_sublist st).map _).nodup hnd
  have hsort : ((get_active_listings st).map (·.car_id)).Nodup := by
    have hperm := (List.perm_insertionSort
      (fun a b : ListingRecord => b.first_seen ≤ a.first_seen)
      (st.filter fun r => !r.is_closed)).map (·.car_id)
    exact (hperm.nodup_iff).mpr hfilter
  have hage : ((closure_scan_aged env mad st).map (·.car_id)).Nodup := by
    simp only [closure_scan_aged]
    split
    · exact ((List.filter_sublist _).map _).nodup hsort
    · exact hsort
  rcases ml with _ | m
  · exact hage
  · simp only [closure_scan_list]
    by_cases hlen : (closure_scan_aged env mad st).length > m
    · rw [if_pos hlen]
      exact ((List.take_sublist _ _).map _).nodup hage
    · rw [if_neg hlen]
      exact hage

/-- A row that is open, looked-up, and old enough is in the (untruncated)
scan input set. -/
theorem mem_scan_list_of_lookup {env : Env} {mad : Int} {st : Store}
    {cid : String} {r : ListingRecord}
    (hr : lookup st cid = some r) (hopen : r.is_closed = false)
    (hage : mad > 0 → r.first_seen ≤ env.now - mad) :
    r ∈ closure_scan_list env none mad st := by
  have hmem : r ∈ st := (mem_of_lookup_eq_some hr).1
  have hfil : r ∈ st.filter (fun x => !x.is_closed) :=
    List.mem_filter.mpr ⟨hmem, by simp [hopen]⟩
  have hsort : r ∈ get_active_listings st :=
    (List.perm_insertionSort _ _).mem_iff.mpr hfil
  simp only [closure_scan_list, closure_scan_aged]
  split
  · next h => exact List.mem_filter.mpr ⟨hsort, by simpa using hage h⟩
  · exact hsort

/-- Master lemma: when the step for `r` leaves the table alone, a whole
pass leaves `r`'s row untouched. -/
theorem scan_pass_lookup_unchanged (env : Env) (oracle : String → PageOutcome)
    (mad : Int) (st : Store) (cid : String) (r : ListingRecord)
    (hnd : (st.map (·.car_id)).Nodup)
    (hr : lookup st cid = some r) (hopen : r.is_closed = false)
    (hage : mad > 0 → r.first_seen ≤ env.now - mad)
    (hstep : ∀ acc : ScanCounters × Store, (scan_step env oracle acc r).2 = acc.2) :
    lookup (scan_listings_for_closure env oracle none mad st).2 cid =
      some r := by
  have hmem := mem_scan_list_of_lookup hr hopen hage
  have hcid : r.car_id = cid := (mem_of_lookup_eq_some hr).2
  obtain ⟨s, t, hL, hs, ht⟩ :=
    nodup_map_split (nodup_closure_scan_list hnd) hmem
  simp only [scan_listings_for_closure, hL, List.foldl_append, List.foldl_cons]
  rw [scan_fold_lookup_const env oracle t cid (fun x hx => hcid ▸ ht x hx), hstep,
      scan_fold_lookup_const env oracle s cid (fun x hx => hcid ▸ hs x hx)]
  exact hr

/-- Master lemma: when the step for `r` marks it closed with reason `ct`, a
whole pass rewrites `r`'s row to the closed row and nothing else. -/
theorem scan_pass_lookup_closed (env : Env) (oracle : String → PageOutcome)
    (mad : Int) (st : Store) (cid : String) (r : ListingRecord) (ct : String)
    (hnd : (st.map (·.car_id)).Nodup)
    (hr : lookup st cid = some r) (hopen : r.is_closed = false)
    (hage : mad > 0 → r.first_seen ≤ env.now - mad)
    (hstep : ∀ acc : ScanCounters × Store,
      (scan_step env oracle acc r).2 = (mark_listing_closed env r.car_id ct acc.2).2) :
    lookup (scan_listings_for_closure env oracle none mad st).2 cid =
      some { r with is_closed := true, closure_detected_at := some env.now,
                    closure_type := some ct, last_updated := env.now } := by
  have hmem := mem_scan_list_of_lookup hr hopen hage
  have hcid : r.car_id = cid := (mem_of_lookup_eq_some hr).2
  subst hcid
  obtain ⟨s, t, hL, hs, ht⟩ :=
    nodup_map_split (nodup_closure_scan_list hnd) hmem
  simp only [scan_listings_for_closure, hL, List.foldl_append, List.foldl_cons]
  rw [scan_fold_lookup_const env oracle t r.car_id ht, hstep,
      mark_lookup_self env ct (by
        rw [scan_fold_lookup_const env oracle s r.car_id hs]
        exact hr)]

/-- Master lemma: when the step for `r` counts an error, a whole pass
reports at least one error. -/
theorem scan_pass_errors (env : Env) (oracle : String → PageOutcome)
    (mad : Int) (st : Store) (cid : String) (r : ListingRecord)
    (hr : lookup st cid = some r) (hopen : r.is_closed = false)
    (hage : mad > 0 → r.first_seen ≤ env.now - mad)
    (hstep : ∀ acc : ScanCounters × Store,
      (scan_step env oracle acc r).1.errors = acc.1.errors + 1) :
    1 ≤ (scan_listings_for_closure env oracle none mad st).1.errors := by
  have hmem := mem_scan_list_of_lookup hr hopen hage
  obtain ⟨s, t, hL⟩ := List.append_of_mem hmem
  simp only [scan_listings_for_closure, hL, List.foldl_append, List.foldl_cons]
  refine le_trans ?_ (scan_fold_errors_mono env oracle t _)
  rw [hstep]
  exact Nat.le_add_left 1 _

/-! ### Scan-step behaviour at specific navigation outcomes -/

theorem scan_step_at_404 (env : Env) (oracle : String → PageOutcome)
    (r : ListingRecord) (pg : Page) (h : oracle r.listing_url = .resp 404 pg) :
    (∀ acc : ScanCounters × Store, (scan_step env oracle acc r).2 =
       (mark_listing_closed env r.car_id "error_404" acc.2).2) ∧
    (∀ acc : ScanCounters × Store,
       (scan_step env oracle acc r).1.errors = acc.1.errors + 1) := by
  constructor <;> intro acc <;>
    simp [scan_step, check_listing_status, h, optStr]

theorem scan_step_at_noResponse (env : Env) (oracle : String → PageOutcome)
    (r : ListingRecord) (h : oracle r.listing_url = .noResponse) :
    (∀ acc : ScanCounters × Store, (scan_step env oracle acc r).2 =
       (mark_listing_closed env r.car_id "no_response" acc.2).2) ∧
    (∀ acc : ScanCounters × Store,
       (scan_step env oracle acc r).1.errors = acc.1.errors + 1) := by
  constructor <;> intro acc <;>
    simp [scan_step, check_listing_status, h, optStr]

theorem scan_step_at_navExn (env : Env) (oracle : String → PageOutcome)
    (r : ListingRecord) (h : oracle r.listing_url = .navExn) :
    (∀ acc : ScanCounters × Store, (scan_step env oracle acc r).2 = acc.2) ∧
    (∀ acc : ScanCounters × Store,
       (scan_step env oracle acc r).1.errors = acc.1.errors + 1) := by
  constructor <;> intro acc <;>
    simp [scan_step, check_listing_status, h]

theorem scan_step_at_launchExn (env : Env) (oracle : String → PageOutcome)
    (r : ListingRecord) (h : oracle r.listing_url = .launchExn) :
    (∀ acc : ScanCounters × Store, (scan_step env oracle acc r).2 = acc.2) ∧
    (∀ acc : ScanCounters × Store,
       (scan_step env oracle acc r).1.errors = acc.1.errors + 1) := by
  constructor <;> intro acc <;>
    simp [scan_step, check_listing_status, h]

/-- A pass never touches the row of an id that is already closed (the id is
excluded from the active input set). -/
theorem scan_pass_noop_of_closed (env₂ : Env) (oracle₂ : String → PageOutcome)
    (ml₂ : Option Nat) (mad₂ : Int) (st₁ : Store) (cid : String)
    (rc : ListingRecord)
    (hnd₁ : (st₁.map (·.car_id)).Nodup)
    (h₁ : lookup st₁ cid = some rc) (hc : rc.is_closed = true) :
    lookup (scan_listings_for_closure env₂ oracle₂ ml₂ mad₂ st₁).2 cid =
      lookup st₁ cid := by
  have hscan : ∀ x ∈ closure_scan_list env₂ ml₂ mad₂ st₁, x.car_id ≠ cid := by
    intro x hx he
    obtain ⟨hmem, hxopen⟩ := mem_closure_scan_list hx
    have := lookup_of_mem_nodup hnd₁ hmem
    rw [he, h₁] at this
    have hrx : rc = x := Option.some_inj.mp this
    rw [← hrx, hc] at hxopen
    simp at hxopen
  exact scan_fold_lookup_const env₂ oracle₂ _ cid hscan ({}, st₁)

/-- The id column of the table is untouched by a scan pass. -/
theorem scan_pass_map_carId (env : Env) (oracle : String → PageOutcome)
    (ml : Option Nat) (mad : Int) (st : Store) :
    ((scan_listings_for_closure env oracle ml mad st).2).map (·.car_id) =
      st.map (·.car_id) :=
  scan_fold_map_carId env oracle _ ({}, st)

/-! ### Claim C3 -/

/-- C3: for every active listing whose page fetch returns HTTP 404, one
ClosureScanner pass sets `is_closed = true` with closure type `error_404`
(the fixed taxonomy member the specification calls `http-404`, never free
text), and a second pass over the same listing is a no-op because a closed
listing is excluded from the active input set that feeds the scan. -/
theorem closure_scan_http404_then_second_pass_noop
    (env env₂ : Env) (oracle oracle₂ : String → PageOutcome) (mad mad₂ : Int)
    (ml₂ : Option Nat) (st : Store) (cid : String) (r : ListingRecord) (pg : Page)
    (hnd : (st.map (·.car_id)).Nodup)
    (hr : lookup st cid = some r) (hopen : r.is_closed = false)
    (hage : mad > 0 → r.first_seen ≤ env.now - mad)
    (h404 : oracle r.listing_url = .resp 404 pg) :
    lookup (scan_listings_for_closure env oracle none mad st).2 cid =
      some { r with is_closed := true, closure_detected_at := some env.now,
                    closure_type := some "error_404", last_updated := env.now } ∧
    "error_404" ∈ closure_reason_taxonomy ∧
    lookup (scan_listings_for_closure env₂ oracle₂ ml₂ mad₂
        (scan_listings_for_closure env oracle none mad st).2).2 cid =
      lookup (scan_listings_for_closure env oracle none mad st).2 cid := by
  have h1 := scan_pass_lookup_closed env oracle mad st cid r "error_404"
    hnd hr hopen hage (scan_step_at_404 env oracle r pg h404).1
  refine ⟨h1, by decide, ?_⟩
  have hnd₁ : ((scan_listings_for_closure env oracle none mad st).2.map
      (·.car_id)).Nodup := by
    rw [scan_pass_map_carId]; exact hnd
  exact scan_pass_noop_of_closed env₂ oracle₂ ml₂ mad₂ _ cid _ hnd₁ h1 rfl

/-- Concrete fixture for the C3 witness: a one-row table whose listing's
page answers 404. -/
def c3_rec : ListingRecord := { car_id := "A", listing_url := "u", first_seen := 0 }

/-- Fixed clock and trivial parsers for the C3 witness. -/
def c3_env : Env := { now := 40, parseDate := fun _ => none, parsePrice := fun _ => none }

/-- Every navigation in the C3 witness returns a bare 404. -/
def c3_oracle : String → PageOutcome := fun _ => .resp 404 {}

theorem closure_scan_http404_then_second_pass_noop_witness :
    lookup (scan_listings_for_closure c3_env c3_oracle none 30 [c3_rec]).2 "A" =
      some { c3_rec with is_closed := true, closure_detected_at := some c3_env.now,
                         closure_type := some "error_404", last_updated := c3_env.now } ∧
    "error_404" ∈ closure_reason_taxonomy ∧
    lookup (scan_listings_for_closure c3_env c3_oracle none 30
        (scan_listings_for_closure c3_env c3_oracle none 30 [c3_rec]).2).2 "A" =
      lookup (scan_listings_for_closure c3_env c3_oracle none 30 [c3_rec]).2 "A" :=
  closure_scan_http404_then_second_pass_noop c3_env c3_env c3_oracle c3_oracle
    30 30 none [c3_rec] "A" c3_rec {} (by decide) rfl rfl (fun _ => by decide) rfl

/-! ### Claim C9 -/

/-- C9: a navigation error or an unexpected exception during the check is
counted as a scan error and does not mark the listing closed, while the two
unambiguous network-level signals — a confirmed 404 response and no response
from the server at all — do mark the listing closed even without page
content. -/
theorem closure_scan_errors_vs_network_closures
    (env : Env) (oracle : String → PageOutcome) (mad : Int)
    (st : Store) (cid : String) (r : ListingRecord)
    (hnd : (st.map (·.car_id)).Nodup)
    (hr : lookup st cid = some r) (hopen : r.is_closed = false)
    (hage : mad > 0 → r.first_seen ≤ env.now - mad) :
    ((oracle r.listing_url = .navExn ∨ oracle r.listing_url = .launchExn) →
      lookup (scan_listings_for_closure env oracle none mad st).2 cid = some r ∧
      1 ≤ (scan_listings_for_closure env oracle none mad st).1.errors) ∧
    (oracle r.listing_url = .noResponse →
      lookup (scan_listings_for_closure env oracle none mad st).2 cid =
        some { r with is_closed := true, closure_detected_at := some env.now,
                      closure_type := some "no_response", last_updated := env.now } ∧
      1 ≤ (scan_listings_for_closure env oracle none mad st).1.errors) ∧
    (∀ pg, oracle r.listing_url = .resp 404 pg →
      lookup (scan_listings_for_closure env oracle none mad st).2 cid =
        some { r with is_closed := true, closure_detected_at := some env.now,
                      closure_type := some "error_404", last_updated := env.now }) := by
  refine ⟨?_, ?_, ?_⟩
  · rintro (h | h)
    · exact ⟨scan_pass_lookup_unchanged env oracle mad st cid r hnd hr hopen hage
          (scan_step_at_navExn env oracle r h).1,
        scan_pass_errors env oracle mad st cid r hr hopen hage
          (scan_step_at_navExn env oracle r h).2⟩
    · exact ⟨scan_pass_lookup_unchanged env oracle mad st cid r hnd hr hopen hage
          (scan_step_at_launchExn env oracle r h).1,
        scan_pass_errors env oracle mad st cid r hr hopen hage
          (scan_step_at_launchExn env oracle r h).2⟩
  · intro h
    exact ⟨scan_pass_lookup_closed env oracle mad st cid r "no_response"
        hnd hr hopen hage (scan_step_at_noResponse env oracle r h).1,
      scan_pass_errors env oracle mad st cid r hr hopen hage
        (scan_step_at_noResponse env oracle r h).2⟩
  · intro pg h
    exact scan_pass_lookup_closed env oracle mad st cid r "error_404"
      hnd hr hopen hage (scan_step_at_404 env oracle r pg h).1

/-- Concrete fixture for the C9 witness: a one-row table whose listing's
navigation raises. -/
def c9_rec : ListingRecord := { car_id := "B", listing_url := "v", first_seen := 0 }

/-- Fixed clock and trivial parsers for the C9 witness. -/
def c9_env : Env := { now := 40, parseDate := fun _ => none, parsePrice := fun _ => none }

/-- Every navigation in the C9 witness raises inside `page.goto`. -/
def c9_oracle : String → PageOutcome := fun _ => .navExn

theorem closure_scan_errors_vs_network_closures_witness :
    ((c9_oracle c9_rec.listing_url = .navExn ∨ c9_oracle c9_rec.listing_url = .launchExn) →
      lookup (scan_listings_for_closure c9_env c9_oracle none 30 [c9_rec]).2 "B" = some c9_rec ∧
      1 ≤ (scan_listings_for_closure c9_env c9_oracle none 30 [c9_rec]).1.errors) ∧
    (c9_oracle c9_rec.listing_url = .noResponse →
      lookup (scan_listings_for_closure c9_env c9_oracle none 30 [c9_rec]).2 "B" =
        some { c9_rec with is_closed := true, closure_detected_at := some c9_env.now,
                           closure_type := some "no_response", last_updated := c9_env.now } ∧
      1 ≤ (scan_listings_for_closure c9_env c9_oracle none 30 [c9_rec]).1.errors) ∧
    (∀ pg, c9_oracle c9_rec.listing_url = .resp 404 pg →
      lookup (scan_listings_for_closure c9_env c9_oracle none 30 [c9_rec]).2 "B" =
        some { c9_rec with is_closed := true, closure_detected_at := some c9_env.now,
                           closure_type := some "error_404", last_updated := c9_env.now }) :=
  closure_scan_errors_vs_network_closures c9_env c9_oracle 30 [c9_rec] "B" c9_rec
    (by decide) rfl rfl (fun _ => by decide)

/-! ### Claim C8 -/

/-- C8: for all non-negative canonical amounts, `calculate_lease_true_cost`
equals `deposit + monthly × termMonths + finalPayment` (the source defaults
`final_payment` to 0); in particular at `(1801, 165, 26, 0)` it equals
`6091`. -/
theorem calculate_lease_true_cost_formula (deposit monthly : ℚ) (term : ℤ)
    (final : ℚ) (hd : 0 ≤ deposit) (hm : 0 ≤ monthly) (ht : 0 ≤ term)
    (hf : 0 ≤ final) :
    calculate_lease_true_cost deposit monthly term final =
      deposit + monthly * (term : ℚ) + final ∧
    calculate_lease_true_cost 1801 165 26 0 = 6091 := by
  refine ⟨rfl, ?_⟩
  norm_num [calculate_lease_true_cost]

theorem calculate_lease_true_cost_formula_witness :
    calculate_lease_true_cost 1801 165 26 0 = 1801 + 165 * ((26 : ℤ) : ℚ) + 0 ∧
    calculate_lease_true_cost 1801 165 26 0 = 6091 :=
  calculate_lease_true_cost_formula 1801 165 26 0 (by norm_num) (by norm_num)
    (by norm_num) (by norm_num)

/-! ### Claim C10 -/

/-- Fixture refuting C10 as stated: first seen before the horizon, last
updated after it. -/
def c10_rec : ListingRecord := { car_id := "C", first_seen := 0, last_updated := 1000 }

/-- Clock for the C10 counterexample (horizon `now - 30 = 70`). -/
def c10_env : Env := { now := 100, parseDate := fun _ => none, parsePrice := fun _ => none }

/-- C10 counterexample: the claim says a listing whose last-updated
timestamp is at or after the retention horizon is retained; this listing
has `last_updated = 1000 ≥ 70` yet the cleanup deletes it, because the
source filters on `first_seen`, not `last_updated`. -/
theorem cleanup_deletes_by_first_seen_counterexample :
    c10_env.now - 30 ≤ c10_rec.last_updated ∧
    c10_rec.first_seen < c10_env.now - 30 ∧
    (cleanup_old_listings c10_env 30 [c10_rec]).2 = [] ∧
    (cleanup_old_listings c10_env 30 [c10_rec]).1 = 1 := by decide

/-- C10 (amended): the cleanup cycle deletes exactly the listings whose
first-seen timestamp is strictly before the retention horizon (`now` minus
the configured days): every listing first seen before the horizon is
removed, every listing first seen at or after it is retained, nothing else
enters the table, and the reported count is the number of rows below the
horizon. -/
theorem cleanup_old_listings_exact (env : Env) (days : Int) (st : Store) :
    (∀ x ∈ st, x.first_seen < env.now - days →
       x ∉ (cleanup_old_listings env days st).2) ∧
    (∀ x ∈ st, env.now - days ≤ x.first_seen →
       x ∈ (cleanup_old_listings env days st).2) ∧
    (∀ x ∈ (cleanup_old_listings env days st).2, x ∈ st) ∧
    (cleanup_old_listings env days st).1 =
      (st.filter fun x => decide (x.first_seen < env.now - days)).length := by
  refine ⟨?_, ?_, ?_, rfl⟩
  · intro x _ hlt hmem
    have h := (List.mem_filter.mp hmem).2
    simp only [Bool.not_eq_true', decide_eq_false_iff_not] at h
    exact h hlt
  · intro x hx hge
    refine List.mem_filter.mpr ⟨hx, ?_⟩
    simp only [Bool.not_eq_true', decide_eq_false_iff_not]
    omega
  · intro x hx
    exact (List.mem_filter.mp hx).1

theorem cleanup_old_listings_exact_witness :
    (∀ x ∈ [c10_rec], x.first_seen < c10_env.now - 30 →
       x ∉ (cleanup_old_listings c10_env 30 [c10_rec]).2) ∧
    (∀ x ∈ [c10_rec], c10_env.now - 30 ≤ x.first_seen →
       x ∈ (cleanup_old_listings c10_env 30 [c10_rec]).2) ∧
    (∀ x ∈ (cleanup_old_listings c10_env 30 [c10_rec]).2, x ∈ [c10_rec]) ∧
    (cleanup_old_listings c10_env 30 [c10_rec]).1 =
      ([c10_rec].filter fun x => decide (x.first_seen < c10_env.now - 30)).length :=
  cleanup_old_listings_exact c10_env 30 [c10_rec]

/-! ### Claim C2 -/

/-- Environment for the C2 boundary instance: today is day 8, the date
string parses to day 0, so the registration is 8 days old. -/
def c2_env : Env :=
  { now := 8, parseDate := fun s => if s = "2024/01/01" then some 0 else none,
    parsePrice := fun _ => none }

/-- The C2 boundary listing: 8-day-old registration, 5 views. -/
def c2_data : ListingData :=
  { car_id := "D", views := 5, registration_date := some "2024/01/01" }

/-- C2: for a listing absent from the store, `is_truly_new_listing` returns
true exactly when (subject to the overriding rule that a registration older
than the configured max age is never truly-new) any of: (a) registration at
most 7 days old and views at or below the low-views threshold; (b) no
registration date and views at or below the immediate-alert threshold;
(c) a registration date present and at most the max age old. A listing
already in the store is never truly-new. The boundary instance: a listing
8 days old with 5 views fails rule (a) but is truly-new through rule (c)
under the default 30-day max age. -/
theorem is_truly_new_listing_characterization :
    (∀ (env : Env) (st : Store) (d : ListingData) (c : NewListingCriteria),
      is_truly_new_listing env st d c = true ↔
        (listing_exists st d.car_id = false ∧
         (∀ ds, calculate_days_since_registration env (optStr d.registration_date) =
            some ds → ds ≤ c.max_registration_age_days) ∧
         (((∃ ds, calculate_days_since_registration env (optStr d.registration_date) =
              some ds ∧ ds ≤ 7) ∧ d.views ≤ c.max_views_for_new) ∨
          (calculate_days_since_registration env (optStr d.registration_date) = none ∧
            d.views ≤ c.immediate_alert_views) ∨
          (∃ ds, calculate_days_since_registration env (optStr d.registration_date) =
              some ds ∧ ds ≤ c.max_registration_age_days)))) ∧
    (calculate_days_since_registration c2_env (optStr c2_data.registration_date) =
       some 8 ∧
     ¬ ((8 : Int) ≤ 7) ∧ (8 : Int) ≤ (30 : Int) ∧
     is_truly_new_listing c2_env [] c2_data {} = true) := by
  constructor
  · intro env st d c
    by_cases hex : listing_exists st d.car_id
    · simp [is_truly_new_listing, hex]
    · have hex' : listing_exists st d.car_id = false := by simpa using hex
      cases hdays : calculate_days_since_registration env (optStr d.registration_date) with
      | none =>
        simp only [is_truly_new_listing, hex', Bool.false_eq_true, if_false, hdays]
        constructor
        · intro h
          refine ⟨trivial, by simp, Or.inr (Or.inl ⟨trivial, ?_⟩)⟩
          by_contra hv
          simp [hv] at h
        · rintro ⟨-, -, (⟨⟨ds, hds, -⟩, -⟩ | ⟨-, hv⟩ | ⟨ds, hds, -⟩)⟩
          · exact absurd hds (by simp)
          · simp [hv]
          · exact absurd hds (by simp)
      | some ds =>
        simp only [is_truly_new_listing, hex', Bool.false_eq_true, if_false, hdays,
          Option.some.injEq]
        split_ifs with h1 h2 h3
        · constructor
          · intro h; cases h
          · rintro ⟨-, hall, -⟩
            exact absurd (hall ds rfl) (by omega)
        · constructor
          · intro _
            refine ⟨trivial, ?_, Or.inl ⟨⟨ds, rfl, h2.1⟩, h2.2⟩⟩
            rintro ds' rfl; omega
          · intro _; rfl
        · constructor
          · intro _
            refine ⟨trivial, ?_, Or.inr (Or.inr ⟨ds, rfl, h3⟩)⟩
            rintro ds' rfl; omega
          · intro _; rfl
        · constructor
          · intro h; cases h
          · rintro ⟨-, -, (⟨⟨ds', hds', hle⟩, hv⟩ | ⟨hnone, -⟩ | ⟨ds', hds', hle⟩)⟩
            · cases hds'; exact absurd ⟨hle, hv⟩ h2
            · cases hnone
            · cases hds'; exact absurd hle h3
  · refine ⟨by decide, by decide, by decide, by decide⟩

/-! ### Claim C1 -/

/-- Existing stored row for C1: browser-sourced detail present. -/
def c1_ex : ListingRecord :=
  { car_id := "X", views := 42, registration_date := some "2024/01/01" }

/-- Clock and trivial parsers for C1. -/
def c1_env : Env :=
  { now := 100, parseDate := fun _ => none, parsePrice := fun _ => none }

/-- An impoverished re-observation of the same id that is NOT flagged
`api_source` (the flag defaults to false). -/
def c1_data : ListingData := { car_id := "X", views := 0, registration_date := none }

/-- The same impoverished re-observation, flagged `api_source`. -/
def c1_api_data : ListingData :=
  { car_id := "X", views := 0, registration_date := none, api_source := true }

/-- C1 counterexample: the claim preserves the existing browser data
whenever the new observation has zero views and no registration date, but
the source also requires the observation's `api_source` flag; without it
this re-observation (views 0, registration date absent) overwrites
`views = 42` and `registration_date = "2024/01/01"` with `0` and `NULL`. -/
theorem save_listing_overwrites_without_api_source :
    c1_data.views = 0 ∧ c1_data.registration_date = none ∧
    c1_ex.views = 42 ∧ c1_ex.registration_date = some "2024/01/01" ∧
    (save_listing c1_env c1_data none [c1_ex]).1 = "updated" ∧
    ((save_listing c1_env c1_data none [c1_ex]).2.map (·.views)) = [0] ∧
    ((save_listing c1_env c1_data none [c1_ex]).2.map (·.registration_date)) =
      [none] := by decide

/-- C1 (amended): on a re-observation of a stored id that is flagged as
API-sourced and carries no browser detail (view count zero and no
registration date), while the stored row has a positive view count or a
registration date, `save_listing` classifies `updated` and preserves the
stored `views`, `registration_date` and `days_since_registration`. -/
theorem save_listing_preserves_browser_fields
    (env : Env) (d : ListingData) (cfg : Option NewListingCriteria) (st : Store)
    (ex : ListingRecord)
    (hex : lookup st d.car_id = some ex)
    (hapi : d.api_source = true) (hv : d.views = 0)
    (hrd : strTruthy d.registration_date = false)
    (hrich : 0 < ex.views ∨ strTruthy ex.registration_date = true) :
    (save_listing env d cfg st).1 = "updated" ∧
    lookup (save_listing env d cfg st).2 d.car_id =
      some (save_update_row env d ex ex) ∧
    (save_update_row env d ex ex).views = ex.views ∧
    (save_update_row env d ex ex).registration_date = ex.registration_date ∧
    (save_update_row env d ex ex).days_since_registration =
      ex.days_since_registration := by
  have hcid : ex.car_id = d.car_id := (mem_of_lookup_eq_some hex).2
  have hcond : ((d.api_source && decide (d.views = 0) && !(strTruthy d.registration_date))
      && (decide (ex.views > 0) || strTruthy ex.registration_date)) = true := by
    rcases hrich with h | h <;> simp [hapi, hv, hrd, h]
  have hpres : save_preserve env d ex =
      (ex.views, ex.registration_date, ex.days_since_registration) := by
    unfold save_preserve
    rw [if_pos hcond]
  refine ⟨?_, ?_, ?_, ?_, ?_⟩
  · simp only [save_listing, hex]
  · simp only [save_listing, hex]
    rw [lookup_map_pres (fun x => by split <;> rfl) st d.car_id, hex,
        Option.map_some', if_pos hcid]
  · simp [save_update_row, hpres]
  · simp [save_update_row, hpres]
  · simp [save_update_row, hpres]

theorem save_listing_preserves_browser_fields_witness :
    (save_listing c1_env c1_api_data none [c1_ex]).1 = "updated" ∧
    lookup (save_listing c1_env c1_api_data none [c1_ex]).2 c1_api_data.car_id =
      some (save_update_row c1_env c1_api_data c1_ex c1_ex) ∧
    (save_update_row c1_env c1_api_data c1_ex c1_ex).views = c1_ex.views ∧
    (save_update_row c1_env c1_api_data c1_ex c1_ex).registration_date =
      c1_ex.registration_date ∧
    (save_update_row c1_env c1_api_data c1_ex c1_ex).days_since_registration =
      c1_ex.days_since_registration :=
  save_listing_preserves_browser_fields c1_env c1_api_data none [c1_ex] c1_ex
    rfl rfl rfl rfl (Or.inl (by decide))

/-! ### Claims C6 and C7: the store as a transition system -/

/-- Each store operation either rewrites rows in place with a function that
preserves `car_id`, keeps `is_closed` once true and keeps `is_truly_new`
once false, or appends one row for an id absent from the table. -/
theorem apply_store_op_cases (env : Env) (op : StoreOp) (st : Store) :
    (∃ g : ListingRecord → ListingRecord,
       (∀ x, (g x).car_id = x.car_id) ∧
       (∀ x, x.is_closed = true → (g x).is_closed = true) ∧
       (∀ x, x.is_truly_new = false → (g x).is_truly_new = false) ∧
       apply_store_op env op st = st.map g) ∨
    (∃ rec : ListingRecord, lookup st rec.car_id = none ∧
       apply_store_op env op st = st ++ [rec]) := by
  cases op with
  | save d cfg =>
    rcases save_listing_snd_cases env d cfg st with
      ⟨g, hcar, hcl, htn, -, heq⟩ | ⟨hno, rec, hrc, heq⟩
    · exact Or.inl ⟨g, hcar, fun x hx => (hcl x).trans hx,
        fun x hx => (htn x).trans hx, heq⟩
    · exact Or.inr ⟨rec, by rw [hrc]; exact hno, heq⟩
  | update cid v rd il li =>
    refine Or.inl ⟨fun x => if x.car_id = cid then update_row env v rd il li x else x,
      ?_, ?_, ?_, rfl⟩
    · intro x
      by_cases h : x.car_id = cid <;> simp [h, update_row_carId]
    · intro x hx
      by_cases h : x.car_id = cid <;> simp [h, update_row_closed, hx]
    · intro x hx
      by_cases h : x.car_id = cid <;> simp [h, update_row_trulyNew, hx]
  | markClosed cid ct =>
    by_cases hex : listing_exists st cid
    · refine Or.inl ⟨mark_row env cid ct, mark_row_carId env cid ct,
        fun x => mark_row_closed_mono env cid ct x, ?_, ?_⟩
      · intro x hx; rw [mark_row_trulyNew]; exact hx
      · show (mark_listing_closed env cid ct st).2 = st.map (mark_row env cid ct)
        rw [mark_store_eq, if_pos hex]
    · refine Or.inl ⟨id, fun _ => rfl, fun _ hx => hx, fun _ hx => hx, ?_⟩
      show (mark_listing_closed env cid ct st).2 = st.map id
      rw [mark_store_eq, if_neg hex, List.map_id]
  | readTrulyNew mt =>
    rcases read_snd_cases env mt st with heq | ⟨g, hcar, hcl, htn, -, heq⟩
    · refine Or.inl ⟨id, fun _ => rfl, fun _ hx => hx, fun _ hx => hx, ?_⟩
      show (get_truly_new_listings env mt st).2 = st.map id
      rw [heq, List.map_id]
    · exact Or.inl ⟨g, hcar, fun x hx => (hcl x).trans hx, htn, heq⟩

/-- One operation preserves a closed row: its id still resolves and is
still closed. -/
theorem apply_store_op_closed_mono (env : Env) (op : StoreOp) (st : Store)
    (cid : String) (r : ListingRecord)
    (h : lookup st cid = some r) (hc : r.is_closed = true) :
    ∃ r', lookup (apply_store_op env op st) cid = some r' ∧
      r'.is_closed = true := by
  rcases apply_store_op_cases env op st with
    ⟨g, hgcar, hgclosed, -, heq⟩ | ⟨rec, -, heq⟩
  · refine ⟨g r, ?_, hgclosed r hc⟩
    rw [heq, lookup_map_pres hgcar st cid, h, Option.map_some']
  · refine ⟨r, ?_, hc⟩
    rw [heq]
    exact lookup_append_of_some _ h

/-- C6: `is_closed` is monotonic. Once a read of a listing observes
`is_closed = true`, no later read after any sequence of store operations
(save/upsert, field update, closure marking, notification read) observes
`false`: the flag transitions only from false to true and is never reset. -/
theorem is_closed_monotonic (st : Store) (cid : String) (r : ListingRecord)
    (h : lookup st cid = some r) (hc : r.is_closed = true)
    (ops : List (Env × StoreOp)) :
    ∃ r', lookup (apply_store_ops ops st) cid = some r' ∧
      r'.is_closed = true := by
  induction ops generalizing st r with
  | nil => exact ⟨r, h, hc⟩
  | cons p ops ih =>
    obtain ⟨r', h', hc'⟩ := apply_store_op_closed_mono p.1 p.2 st cid r h hc
    exact ih (apply_store_op p.1 p.2 st) r' h' hc'

/-- Closed fixture row for the C6 witness. -/
def c6_rec : ListingRecord := { car_id := "E", is_closed := true }

/-- Clock and trivial parsers for the C6 witness. -/
def c6_env : Env :=
  { now := 5, parseDate := fun _ => none, parsePrice := fun _ => none }

theorem is_closed_monotonic_witness :
    ∃ r', lookup (apply_store_ops
        [(c6_env, .save { car_id := "E", views := 3 } none),
         (c6_env, .update "E" (some 9) none none none),
         (c6_env, .markClosed "F" "sold"),
         (c6_env, .readTrulyNew 15)] [c6_rec]) "E" = some r' ∧
      r'.is_closed = true :=
  is_closed_monotonic [c6_rec] "E" c6_rec rfl rfl _

/-- One operation preserves the two-part C7 invariant: a row with the given
id exists, and every row with that id has `is_truly_new = false`. -/
theorem apply_store_op_flag_cleared (env : Env) (op : StoreOp) (st : Store)
    (cid : String)
    (hP : (∃ x ∈ st, x.car_id = cid) ∧
          (∀ x ∈ st, x.car_id = cid → x.is_truly_new = false)) :
    (∃ x ∈ apply_store_op env op st, x.car_id = cid) ∧
    (∀ x ∈ apply_store_op env op st, x.car_id = cid → x.is_truly_new = false) := by
  obtain ⟨⟨x0, hx0, hc0⟩, hall⟩ := hP
  rcases apply_store_op_cases env op st with
    ⟨g, hgcar, -, hgtn, heq⟩ | ⟨rec, hno, heq⟩
  · rw [heq]
    constructor
    · exact ⟨g x0, List.mem_map_of_mem g hx0, by rw [hgcar]; exact hc0⟩
    · rintro x hx hcx
      obtain ⟨y, hy, rfl⟩ := List.mem_map.mp hx
      have hyc : y.car_id = cid := by rw [← hgcar y]; exact hcx
      exact hgtn y (hall y hy hyc)
  · rw [heq]
    have hrecne : rec.car_id ≠ cid := by
      intro he
      exact lookup_eq_none_iff.mp hno x0 hx0 (by rw [hc0, he])
    constructor
    · exact ⟨x0, List.mem_append_left _ hx0, hc0⟩
    · intro x hx hcx
      rcases List.mem_append.mp hx with hmem | hmem
      · exact hall x hmem hcx
      · have : x = rec := by simpa using hmem
        subst this
        exact absurd hcx hrecne

/-- The notification read clears `is_truly_new` for every returned id in
the same call, and the id keeps a row. -/
theorem read_establishes_cleared (env0 : Env) (mt0 : Int) (st : Store)
    (r : ListingRecord) (hr : r ∈ (get_truly_new_listings env0 mt0 st).1) :
    (∃ x ∈ (get_truly_new_listings env0 mt0 st).2, x.car_id = r.car_id) ∧
    (∀ x ∈ (get_truly_new_listings env0 mt0 st).2, x.car_id = r.car_id →
       x.is_truly_new = false) := by
  have hrsel : r ∈ truly_new_selected env0 mt0 st := hr
  have hrst : r ∈ st := (mem_read_fst hr).1
  have hne : (truly_new_selected env0 mt0 st).isEmpty = false := by
    cases he : (truly_new_selected env0 mt0 st).isEmpty
    · rfl
    · rw [List.isEmpty_iff] at he
      rw [he] at hrsel
      simp at hrsel
  have hsnd : (get_truly_new_listings env0 mt0 st).2 = st.map fun x =>
      if ((truly_new_selected env0 mt0 st).map (·.car_id)).contains x.car_id
      then { x with is_truly_new := false } else x := by
    simp only [get_truly_new_listings, hne, Bool.false_eq_true, if_false]
  have hcontains : ∀ x : ListingRecord, x.car_id = r.car_id →
      ((truly_new_selected env0 mt0 st).map (·.car_id)).contains x.car_id = true := by
    intro x hx
    rw [hx]
    exact List.elem_eq_true_of_mem (List.mem_map_of_mem _ hrsel)
  rw [hsnd]
  constructor
  · refine ⟨if ((truly_new_selected env0 mt0 st).map (·.car_id)).contains r.car_id
      then { r with is_truly_new := false } else r,
      List.mem_map_of_mem _ hrst, ?_⟩
    split <;> rfl
  · rintro x hx hcx
    obtain ⟨y, hy, rfl⟩ := List.mem_map.mp hx
    have hyc : y.car_id = r.car_id := by
      revert hcx; split <;> intro hcx <;> exact hcx
    rw [if_pos (hcontains y hyc)]

/-- Every row the read returns carries `is_truly_new = true` in the
pre-state, so under the cleared invariant nothing with the id is
returned. -/
theorem read_excludes_cleared (env1 : Env) (mt1 : Int) (st1 : Store)
    (cid : String)
    (hall : ∀ x ∈ st1, x.car_id = cid → x.is_truly_new = false) :
    cid ∉ ((get_truly_new_listings env1 mt1 st1).1.map (·.car_id)) := by
  intro hmem
  obtain ⟨y, hy, hyc⟩ := List.mem_map.mp hmem
  have := mem_read_fst hy
  have hfalse := hall y this.1 hyc
  rw [this.2.1] at hfalse
  exact Bool.noConfusion hfalse

/-- A sequence of operations preserves the C7 invariant. -/
theorem apply_store_ops_flag_cleared (ops : List (Env × StoreOp)) (st : Store)
    (cid : String)
    (hP : (∃ x ∈ st, x.car_id = cid) ∧
          (∀ x ∈ st, x.car_id = cid → x.is_truly_new = false)) :
    (∃ x ∈ apply_store_ops ops st, x.car_id = cid) ∧
    (∀ x ∈ apply_store_ops ops st, x.car_id = cid → x.is_truly_new = false) := by
  induction ops generalizing st with
  | nil => exact hP
  | cons p ops ih =>
    exact ih (apply_store_op p.1 p.2 st)
      (apply_store_op_flag_cleared p.1 p.2 st cid hP)

/-- C7: the notification hand-off read is one-shot. Every listing it
returns has `is_truly_new` cleared in the same call, so after any sequence
of store operations (save/upsert, field update, closure marking, further
reads) a later read never returns the same listing id again. -/
theorem get_truly_new_one_shot (env0 : Env) (mt0 : Int) (st : Store)
    (r : ListingRecord) (hr : r ∈ (get_truly_new_listings env0 mt0 st).1)
    (ops : List (Env × StoreOp)) (env1 : Env) (mt1 : Int) :
    r.car_id ∉ ((get_truly_new_listings env1 mt1
      (apply_store_ops ops (get_truly_new_listings env0 mt0 st).2)).1.map
        (·.car_id)) := by
  exact read_excludes_cleared env1 mt1 _ r.car_id
    (apply_store_ops_flag_cleared ops _ r.car_id
      (read_establishes_cleared env0 mt0 st r hr)).2

/-- Truly-new coupe fixture row for the C7 witness. -/
def c7_rec : ListingRecord :=
  { car_id := "G", is_coupe := true, is_truly_new := true, first_seen := 100 }

/-- Clock and trivial parsers for the C7 witness. -/
def c7_env : Env :=
  { now := 110, parseDate := fun _ => none, parsePrice := fun _ => none }

theorem get_truly_new_one_shot_witness :
    c7_rec.car_id ∉ ((get_truly_new_listings c7_env 15
      (apply_store_ops [(c7_env, StoreOp.save { car_id := "G" } none)]
        (get_truly_new_listings c7_env 15 [c7_rec]).2)).1.map (·.car_id)) :=
  get_truly_new_one_shot c7_env 15 [c7_rec] c7_rec (by decide)
    [(c7_env, StoreOp.save { car_id := "G" } none)] c7_env 15

/-! ### Claim C5 -/

/-- `ensure_authenticated` only ever appends to the event trace. -/
theorem ensure_authenticated_events_ext (env : ClientEnv) (cs cs1 : ClientState)
    (h : ensure_authenticated env cs = some cs1) :
    ∃ r0, cs1.events = cs.events ++ r0 := by
  unfold ensure_authenticated at h
  split at h
  · cases h; exact ⟨[], by simp⟩
  · cases hf : env.fresh cs.rebuild_idx with
    | none => rw [hf] at h; cases h
    | some s' =>
      rw [hf] at h
      cases h
      exact ⟨[ClientEvent.session_rebuild], rfl⟩

/-- A `make_api_request_go` run only ever appends to the event trace. -/
theorem make_api_request_go_events_ext (env : ClientEnv) :
    ∀ (b : Nat) (cs : ClientState),
      ∃ rest, ((make_api_request_go env b cs).2).events = cs.events ++ rest := by
  intro b
  induction b with
  | zero =>
    intro cs
    rw [make_api_request_go]
    cases hens : ensure_authenticated env cs with
    | none => exact ⟨[], by simp⟩
    | some cs1 =>
      obtain ⟨r0, hr0⟩ := ensure_authenticated_events_ext env cs cs1 hens
      cases hd : env.direct cs1.attempt_idx with
      | ok d => exact ⟨r0 ++ [ClientEvent.direct_attempt], by simp [hd, hr0]⟩
      | exn => exact ⟨r0 ++ [ClientEvent.direct_attempt], by simp [hd, hr0]⟩
      | status code =>
        simp only [hd]
        by_cases h407 : code = 407
        · rw [if_pos h407]
          cases hb : make_api_request_with_browser (env.browser cs1.browser_idx) with
          | some d =>
            exact ⟨r0 ++ [ClientEvent.direct_attempt, ClientEvent.browser_attempt],
              by simp [hr0]⟩
          | none =>
            exact ⟨r0 ++ [ClientEvent.direct_attempt, ClientEvent.browser_attempt],
              by simp [hr0]⟩
        · rw [if_neg h407]
          by_cases hauth : code = 403 ∨ code = 401
          · rw [if_pos hauth]
            exact ⟨r0 ++ [ClientEvent.direct_attempt], by simp [hr0]⟩
          · rw [if_neg hauth]
            exact ⟨r0 ++ [ClientEvent.direct_attempt], by simp [hr0]⟩
  | succ b' ih =>
    intro cs
    rw [make_api_request_go]
    cases hens : ensure_authenticated env cs with
    | none => exact ⟨[], by simp⟩
    | some cs1 =>
      obtain ⟨r0, hr0⟩ := ensure_authenticated_events_ext env cs cs1 hens
      cases hd : env.direct cs1.attempt_idx with
      | ok d => exact ⟨r0 ++ [ClientEvent.direct_attempt], by simp [hd, hr0]⟩
      | exn => exact ⟨r0 ++ [ClientEvent.direct_attempt], by simp [hd, hr0]⟩
      | status code =>
        simp only [hd]
        by_cases h407 : code = 407
        · rw [if_pos h407]
          cases hb : make_api_request_with_browser (env.browser cs1.browser_idx) with
          | some d =>
            exact ⟨r0 ++ [ClientEvent.direct_attempt, ClientEvent.browser_attempt],
              by simp [hr0]⟩
          | none =>
            obtain ⟨r1, hr1⟩ := ih _
            refine ⟨r0 ++ [ClientEvent.direct_attempt, ClientEvent.browser_attempt]
              ++ r1, ?_⟩
            rw [hr1]
            simp [hr0]
        · rw [if_neg h407]
          by_cases hauth : code = 403 ∨ code = 401
          · rw [if_pos hauth]
            obtain ⟨r1, hr1⟩ := ih _
            refine ⟨r0 ++ [ClientEvent.direct_attempt] ++ r1, ?_⟩
            rw [hr1]
            simp [hr0]
          · rw [if_neg hauth]
            exact ⟨r0 ++ [ClientEvent.direct_attempt], by simp [hr0]⟩

/-- When the mandatory `ensure_authenticated` step of a `make_api_request_go`
run succeeds with state `cs1`, the run's trace continues `cs1`'s trace with
a direct attempt: whatever the session check did (including a rebuild)
strictly precedes the next direct attempt. -/
theorem make_api_request_go_events_after (env : ClientEnv) (b : Nat)
    (cs cs1 : ClientState) (hens : ensure_authenticated env cs = some cs1) :
    ∃ rest, ((make_api_request_go env b cs).2).events =
      cs1.events ++ ClientEvent.direct_attempt :: rest := by
  rw [make_api_request_go]
  cases hens' : ensure_authenticated env cs with
  | none => rw [hens'] at hens; cases hens
  | some cs2 =>
    rw [hens'] at hens
    obtain rfl : cs2 = cs1 := Option.some_inj.mp hens
    cases hd : env.direct cs2.attempt_idx with
    | ok d => exact ⟨[], by simp [hd]⟩
    | exn => exact ⟨[], by simp [hd]⟩
    | status code =>
      simp only [hd]
      by_cases h407 : code = 407
      · rw [if_pos h407]
        cases hb : make_api_request_with_browser (env.browser cs2.browser_idx) with
        | some d => exact ⟨[ClientEvent.browser_attempt], by simp⟩
        | none =>
          cases b with
          | zero => exact ⟨[ClientEvent.browser_attempt], by simp⟩
          | succ b' =>
            obtain ⟨r1, hr1⟩ := make_api_request_go_events_ext env b' _
            refine ⟨[ClientEvent.browser_attempt] ++ r1, ?_⟩
            rw [hr1]
            simp
      · rw [if_neg h407]
        by_cases hauth : code = 403 ∨ code = 401
        · rw [if_pos hauth]
          cases b with
          | zero => exact ⟨[], by simp⟩
          | succ b' =>
            obtain ⟨r1, hr1⟩ := make_api_request_go_events_ext env b' _
            refine ⟨r1, ?_⟩
            rw [hr1]
            simp
        · rw [if_neg hauth]
          exact ⟨[], by simp⟩

/-- C5: with a valid session, a 407 on the direct path re-issues the same
request through the rendered browser, and a successful fallback's data is
returned with the session object untouched (no rebuild event, cookies,
headers and expiry unchanged). A direct answer of 403 or 401 invalidates
the session, and the very next direct attempt — whatever its outcome — is
issued only after `ensure_authenticated` has rebuilt the session (the run's
trace starts direct, rebuild, direct); when that retry succeeds, its data
is returned under the rebuilt session. -/
theorem escalation_407_browser_vs_403_rebuild
    (env : ClientEnv) (s : Session) (t : Int)
    (hvalid : s.auth_valid_until = some t) (hnow : env.now < t) :
    (∀ d : ApiData, env.direct 0 = .status 407 →
       make_api_request_with_browser (env.browser 0) = some d →
       make_api_request env s =
         (some d, { session := s, attempt_idx := 1, browser_idx := 1,
                    rebuild_idx := 0,
                    events := [.direct_attempt, .browser_attempt] })) ∧
    (∀ (c : Nat) (s₁ : Session), env.direct 0 = .status c →
       c = 403 ∨ c = 401 → env.fresh 0 = some s₁ →
       make_api_request env s =
         make_api_request_go env 2
           { session := { s with auth_valid_until := none }, attempt_idx := 1,
             browser_idx := 0, rebuild_idx := 0,
             events := [.direct_attempt] } ∧
       ensure_authenticated env
           { session := { s with auth_valid_until := none }, attempt_idx := 1,
             browser_idx := 0, rebuild_idx := 0,
             events := [.direct_attempt] } =
         some { session := s₁, attempt_idx := 1, browser_idx := 0,
                rebuild_idx := 1,
                events := [.direct_attempt, .session_rebuild] } ∧
       ∃ rest, (make_api_request env s).2.events =
         ClientEvent.direct_attempt :: ClientEvent.session_rebuild ::
           ClientEvent.direct_attempt :: rest) ∧
    (∀ (c : Nat) (d₂ : ApiData) (s₁ : Session), env.direct 0 = .status c →
       c = 403 ∨ c = 401 → env.fresh 0 = some s₁ → env.direct 1 = .ok d₂ →
       make_api_request env s =
         (some d₂, { session := s₁, attempt_idx := 2, browser_idx := 0,
                     rebuild_idx := 1,
                     events := [.direct_attempt, .session_rebuild,
                                .direct_attempt] })) := by
  refine ⟨?_, ?_, ?_⟩
  · intro d h407 hb
    simp [make_api_request, max_retries, make_api_request_go, ensure_authenticated,
      is_auth_valid, hvalid, hnow, h407, hb]
  · intro c s₁ hdir hc hfresh
    have hA : make_api_request env s =
        make_api_request_go env 2
          { session := { s with auth_valid_until := none }, attempt_idx := 1,
            browser_idx := 0, rebuild_idx := 0,
            events := [.direct_attempt] } := by
      rcases hc with rfl | rfl <;>
        · rw [make_api_request, max_retries, make_api_request_go]
          simp [ensure_authenticated, is_auth_valid, hvalid, hnow, hdir]
    have hB : ensure_authenticated env
        { session := { s with auth_valid_until := none }, attempt_idx := 1,
          browser_idx := 0, rebuild_idx := 0,
          events := [.direct_attempt] } =
        some { session := s₁, attempt_idx := 1, browser_idx := 0,
               rebuild_idx := 1,
               events := [.direct_attempt, .session_rebuild] } := by
      simp [ensure_authenticated, is_auth_valid, hfresh]
    obtain ⟨rest, hrest⟩ := make_api_request_go_events_after env 2 _ _ hB
    refine ⟨hA, hB, rest, ?_⟩
    rw [hA, hrest]
    simp
  · intro c d₂ s₁ hdir hc hfresh hok
    rcases hc with rfl | rfl <;>
      simp [make_api_request, max_retries, make_api_request_go, ensure_authenticated,
        is_auth_valid, hvalid, hnow, hdir, hfresh, hok]

/-- C5 fixture: direct path answers 407 once, browser fallback succeeds. -/
def c5_env1 : ClientEnv :=
  { now := 0,
    direct := fun k => if k = 0 then .status 407 else .exn,
    browser := fun _ => some { status := 200, preJson := some { count := 1 } },
    fresh := fun _ => none }

/-- C5 fixture: direct path answers 403 then succeeds after the rebuild. -/
def c5_env2 : ClientEnv :=
  { now := 0,
    direct := fun k => if k = 0 then .status 403 else .ok { count := 2 },
    browser := fun _ => none,
    fresh := fun _ => some { auth_valid_until := some 99 } }

/-- C5 fixture: direct path answers 401 and the retry also fails, yet the
rebuild still precedes the retry. -/
def c5_env3 : ClientEnv :=
  { now := 0,
    direct := fun k => if k = 0 then .status 401 else .exn,
    browser := fun _ => none,
    fresh := fun _ => some { auth_valid_until := some 99 } }

/-- A session that is valid at time 0. -/
def c5_sess : Session := { auth_valid_until := some 10 }

theorem escalation_407_browser_vs_403_rebuild_witness :
    make_api_request c5_env1 c5_sess =
      (some { count := 1 },
       { session := c5_sess, attempt_idx := 1, browser_idx := 1, rebuild_idx := 0,
         events := [.direct_attempt, .browser_attempt] }) ∧
    (make_api_request c5_env3 c5_sess =
       make_api_request_go c5_env3 2
         { session := { c5_sess with auth_valid_until := none }, attempt_idx := 1,
           browser_idx := 0, rebuild_idx := 0,
           events := [.direct_attempt] } ∧
     ensure_authenticated c5_env3
         { session := { c5_sess with auth_valid_until := none }, attempt_idx := 1,
           browser_idx := 0, rebuild_idx := 0,
           events := [.direct_attempt] } =
       some { session := { auth_valid_until := some 99 }, attempt_idx := 1,
              browser_idx := 0, rebuild_idx := 1,
              events := [.direct_attempt, .session_rebuild] } ∧
     ∃ rest, (make_api_request c5_env3 c5_sess).2.events =
       ClientEvent.direct_attempt :: ClientEvent.session_rebuild ::
         ClientEvent.direct_attempt :: rest) ∧
    make_api_request c5_env2 c5_sess =
      (some { count := 2 },
       { session := { auth_valid_until := some 99 }, attempt_idx := 2,
         browser_idx := 0, rebuild_idx := 1,
         events := [.direct_attempt, .session_rebuild, .direct_attempt] }) :=
  ⟨(escalation_407_browser_vs_403_rebuild c5_env1 c5_sess 10 rfl (by decide)).1
      { count := 1 } rfl rfl,
   (escalation_407_browser_vs_403_rebuild c5_env3 c5_sess 10 rfl (by decide)).2.1
      401 { auth_valid_until := some 99 } rfl (Or.inr rfl) rfl,
   (escalation_407_browser_vs_403_rebuild c5_env2 c5_sess 10 rfl (by decide)).2.2
      403 { count := 2 } { auth_valid_until := some 99 } rfl (Or.inl rfl) rfl rfl⟩

/-! ### Claim C4 -/

theorem ensure_authenticated_direct_count (env : ClientEnv) (cs cs1 : ClientState)
    (h : ensure_authenticated env cs = some cs1) :
    cs1.events.count ClientEvent.direct_attempt =
      cs.events.count ClientEvent.direct_attempt := by
  unfold ensure_authenticated at h
  split at h
  · cases h; rfl
  · cases hf : env.fresh cs.rebuild_idx with
    | none => rw [hf] at h; cases h
    | some s' =>
      rw [hf] at h
      cases h
      simp [List.count_append]

/-- The direct-attempt count of one `make_api_request_go` run grows by at
most one per remaining retry plus one for the current attempt. -/
theorem make_api_request_go_direct_count (env : ClientEnv) :
    ∀ (b : Nat) (cs : ClientState),
      ((make_api_request_go env b cs).2).events.count ClientEvent.direct_attempt ≤
        cs.events.count ClientEvent.direct_attempt + 1 + b := by
  intro b
  induction b with
  | zero =>
    intro cs
    rw [make_api_request_go]
    cases hens : ensure_authenticated env cs with
    | none => simp
    | some cs1 =>
      have hc1 := ensure_authenticated_direct_count env cs cs1 hens
      cases hd : env.direct cs1.attempt_idx with
      | ok d => simp [hd, List.count_append, hc1]
      | exn => simp [hd, List.count_append, hc1]
      | status code =>
        simp only [hd]
        by_cases h407 : code = 407
        · rw [if_pos h407]
          cases hb : make_api_request_with_browser (env.browser cs1.browser_idx) with
          | some d => simp [hb, List.count_append, hc1]
          | none => simp [hb, List.count_append, hc1]
        · rw [if_neg h407]
          by_cases hauth : code = 403 ∨ code = 401
          · rw [if_pos hauth]
            simp [List.count_append, hc1]
          · rw [if_neg hauth]
            simp [List.count_append, hc1]
  | succ b ih =>
    intro cs
    rw [make_api_request_go]
    cases hens : ensure_authenticated env cs with
    | none => simp; omega
    | some cs1 =>
      have hc1 := ensure_authenticated_direct_count env cs cs1 hens
      cases hd : env.direct cs1.attempt_idx with
      | ok d => simp [hd, List.count_append, hc1]
      | exn => simp [hd, List.count_append, hc1]
      | status code =>
        simp only [hd]
        by_cases h407 : code = 407
        · rw [if_pos h407]
          cases hb : make_api_request_with_browser (env.browser cs1.browser_idx) with
          | some d => simp [hb, List.count_append, hc1]
          | none =>
            simp only [hb]
            refine le_trans (ih _) ?_
            simp [List.count_append, hc1]
            omega
        · rw [if_neg h407]
          by_cases hauth : code = 403 ∨ code = 401
          · rw [if_pos hauth]
            refine le_trans (ih _) ?_
            simp [List.count_append, hc1]
            omega
          · rw [if_neg hauth]
            simp [List.count_append, hc1]

/-- C4 fixture: every direct attempt is rejected with 403; rebuilds
succeed; the browser is never consulted. -/
def c4_fail_env : ClientEnv :=
  { now := 0, direct := fun _ => .status 403, browser := fun _ => none,
    fresh := fun _ => some { auth_valid_until := some 1 } }

/-- A session valid at time 0 for the C4 fixture. -/
def c4_session : Session := { auth_valid_until := some 1 }

/-- Trivial clock/parsers for the C4 orchestrator fixture. -/
def c4_menv : Env :=
  { now := 0, parseDate := fun _ => none, parsePrice := fun _ => none }

/-- A non-empty monitor store, so the cycle takes the regular-scan path. -/
def c4_mstate : MonitorState := { store := [{ car_id := "H" }] }

set_option maxHeartbeats 1600000 in
/-- C4 counterexample: with every attempt rejected, the client issues 4
direct attempts (1 initial + 3 retries), not the 3 total attempts the claim
states, before surfacing the exhausted result. -/
theorem acquisition_total_attempts_is_four :
    (make_api_request c4_fail_env c4_session).2.events.count
        ClientEvent.direct_attempt = 4 ∧
    ¬ ((make_api_request c4_fail_env c4_session).2.events.count
        ClientEvent.direct_attempt = 3) ∧
    (make_api_request c4_fail_env c4_session).1 = none := by decide

/-- Every cycle advances the cycle counter by exactly one, whatever the
acquisition did. -/
theorem run_monitoring_cycle_check_count (env : Env) (cenv : ClientEnv)
    (cfg : NewListingCriteria) (s : Session) (m : MonitorState) :
    (run_monitoring_cycle env cenv cfg s m).check_count = m.check_count + 1 := by
  simp only [run_monitoring_cycle]
  split
  · simp only [run_initial_population]
    split <;> rfl
  · simp only [run_regular_monitoring]
    split <;> rfl

set_option maxHeartbeats 1600000 in
/-- C4 (amended): an acquisition whose escalation chain fails at every step
stops after a bounded number of total attempts — at most `1 + max_retries
= 4`, and exactly 4 when every attempt is rejected with 403 — and surfaces
the exhausted chain as `none`, which `get_listings` maps to the empty page
rather than raising; the Orchestrator's cycle then completes normally
(counter advanced, store untouched), and the next scheduled cycle still
runs. -/
theorem acquisition_exhaustion_bounded_and_isolated :
    (∀ (cenv : ClientEnv) (s : Session),
       (make_api_request cenv s).2.events.count ClientEvent.direct_attempt ≤
         1 + max_retries) ∧
    ((make_api_request c4_fail_env c4_session).2.events.count
        ClientEvent.direct_attempt = 1 + max_retries ∧
     (make_api_request c4_fail_env c4_session).1 = none) ∧
    (∀ (cenv : ClientEnv) (s : Session), (make_api_request cenv s).1 = none →
       (get_listings cenv s).1 = ([], 0)) ∧
    (∀ (env : Env) (cenv : ClientEnv) (cfg : NewListingCriteria) (s : Session)
       (m : MonitorState), m.store.isEmpty = false →
       (get_listings cenv s).1.1 = [] →
       run_monitoring_cycle env cenv cfg s m =
         { m with check_count := m.check_count + 1 }) ∧
    (∀ (env env₂ : Env) (cenv cenv₂ : ClientEnv) (cfg cfg₂ : NewListingCriteria)
       (s s₂ : Session) (m : MonitorState),
       (run_monitoring_cycle env₂ cenv₂ cfg₂ s₂
          (run_monitoring_cycle env cenv cfg s m)).check_count =
         m.check_count + 2) := by
  refine ⟨?_, by decide, ?_, ?_, ?_⟩
  · intro cenv s
    have h := make_api_request_go_direct_count cenv max_retries { session := s }
    simpa [make_api_request] using h
  · intro cenv s h
    rcases hm : make_api_request cenv s with ⟨o, cs⟩
    rw [hm] at h
    simp only at h
    subst h
    simp [get_listings, hm]
  · intro env cenv cfg s m hstore hlist
    have hscrape : scrape_with_filters cenv s = [] := by
      simp [scrape_with_filters, hlist]
    simp [run_monitoring_cycle, run_regular_monitoring, is_first_run, hstore, hscrape]
  · intro env env₂ cenv cenv₂ cfg cfg₂ s s₂ m
    rw [run_monitoring_cycle_check_count, run_monitoring_cycle_check_count]

set_option maxHeartbeats 1600000 in
theorem acquisition_exhaustion_bounded_and_isolated_witness :
    (make_api_request c4_fail_env c4_session).2.events.count
        ClientEvent.direct_attempt ≤ 1 + max_retries ∧
    (get_listings c4_fail_env c4_session).1 = ([], 0) ∧
    run_monitoring_cycle c4_menv c4_fail_env {} c4_session c4_mstate =
      { c4_mstate with check_count := c4_mstate.check_count + 1 } ∧
    (run_monitoring_cycle c4_menv c4_fail_env {} c4_session
       (run_monitoring_cycle c4_menv c4_fail_env {} c4_session c4_mstate)).check_count =
      c4_mstate.check_count + 2 :=
  ⟨acquisition_exhaustion_bounded_and_isolated.1 c4_fail_env c4_session,
   acquisition_exhaustion_bounded_and_isolated.2.2.1 c4_fail_env c4_session (by decide),
   acquisition_exhaustion_bounded_and_isolated.2.2.2.1 c4_menv c4_fail_env {}
     c4_session c4_mstate (by decide) (by decide),
   acquisition_exhaustion_bounded_and_isolated.2.2.2.2 c4_menv c4_menv c4_fail_env
     c4_fail_env {} {} c4_session c4_session c4_mstate⟩

end Encar
